import Mathlib

/-!
Verification development for the announcement scheduling and cancellation core
of the boombox radio application (`src/utils/RadioAnnouncer.ts`).

The class `RadioAnnouncer` is embedded as a small-step interpreter:

* `MState` holds the instance fields of the class (`isPlayingMusic`,
  `currentStationName`, `currentFrequency`, `stationId`,
  `pendingBufferPromise`, `timer`, `debounceTimer`, `currentSource`)
  together with the runtime objects the code manipulates: the created
  generation pipelines (invocations of `generateAnnouncement`, each suspended
  at one of its awaits or resolved), the suspended `playPendingAnnouncement`
  continuations waiting on a promise, and the started audio sources.
* `Act` is one external occurrence: a station-change notification, a
  playback-state notification, a timer callback firing, one asynchronous
  stage of a generation pipeline completing, or a source finishing naturally.
  The JavaScript runtime is single-threaded, so each occurrence runs the
  corresponding handler to completion atomically; promise continuations
  (microtasks) run immediately when their promise resolves.
* `Oracle` fixes the outcomes of the external services (script generation,
  speech synthesis, audio decoding, audio-graph construction): each may
  succeed, produce an empty/missing value, or throw.  Quantifying over
  oracles and action lists quantifies over all service behaviours and all
  interleavings of user input, timer expiry and generation latency.

Observable effects are collected in `MState.events`: generation requests,
playback starts (the audio-graph connection and `source.start()` happen in
one synchronous block in the source, lines 165-178), node disconnections,
and `console.error` diagnostic log lines (lines 147, 189).  The class never
touches the UI and has no user-visible error channel; its only outward
effects are the audio-graph operations and the diagnostic logs.
-/

set_option linter.unusedVariables false
set_option linter.unnecessarySeqFocus false

namespace Radio

/-- Settle (debounce) delay in milliseconds (source line 74). -/
def D_SETTLE : Nat := 800

/-- Countdown delay in milliseconds before a play attempt (source line 92). -/
def D_ANNOUNCE : Nat := 15000

/-- The countdown timer slot `this.timer`: armed by `startTimer` with an
absolute deadline `now + 15000` and the epoch `myId = this.stationId`
captured at arming time (source lines 84-94). -/
structure CTimer where
  deadline : Nat
  myId : Nat
deriving DecidableEq

/-- The debounce timer slot `this.debounceTimer`: armed by `onStationChange`
with deadline `now + 800`; the closure captures the `stationName` and
`frequency` arguments of that call (source lines 72-74). -/
structure DTimer where
  deadline : Nat
  name : String
  freq : String
deriving DecidableEq

/-- Progress of one invocation of `generateAnnouncement(id, station, freq)`
(source lines 96-150): suspended at one of its three awaits (the script
request, the speech-synthesis request, `decodeAudioData`) or resolved to
`some buffer` / `none`.  Decoded audio buffers are represented by `Nat`
tags chosen by the oracle. -/
inductive PStage where
  | awaitScript
  | awaitTts (script : String)
  | awaitDecode (data : String)
  | resolved (res : Option Nat)
deriving DecidableEq

def PStage.isResolved : PStage → Bool
  | .resolved _ => true
  | _ => false

/-- One created generation pipeline.  `createdId` is the `id` argument the
pipeline was created with: `this.stationId` read when the debounce fired
(source line 73). -/
structure Pipeline where
  createdId : Nat
  station : String
  freq : String
  stage : PStage
deriving DecidableEq

/-- A suspended `playPendingAnnouncement(myId)` continuation waiting on the
promise of pipeline `pid` (await on source line 160). -/
structure Waiter where
  pid : Nat
  myId : Nat
deriving DecidableEq

/-- An `AudioBufferSourceNode` (with its gain node) that was started.
`playingNow` is true until its `onended` callback runs; `connected` is true
while its graph nodes are still connected (source lines 165-187). -/
structure Source where
  pid : Nat
  buf : Nat
  playingNow : Bool
  connected : Bool
deriving DecidableEq

/-- Observable occurrences, most recent first.
`playStart sid pid created cur buf musicOn` records that source `sid`
playing buffer `buf` of pipeline `pid` was connected and started, where
`created` is the pipeline's creating epoch and `cur` / `musicOn` are
`this.stationId` / `this.isPlayingMusic` at that moment. -/
inductive Event where
  | genRequest (pid id : Nat) (station freq : String)
  | playStart (sid pid created cur buf : Nat) (musicOn : Bool)
  | logGenError (pid : Nat)
  | logPlayError
  | disconnected (sid : Nat)
deriving DecidableEq

/-- The state of a `RadioAnnouncer` instance plus the runtime objects it
owns.  Field names follow the source (lines 10-23).  `pendingBufferPromise`
holds the pipeline index whose promise is stored in the field, `currentSource`
the index of the source last assigned to `this.currentSource`. -/
structure MState where
  now : Nat
  isPlayingMusic : Bool
  currentStationName : Option String
  currentFrequency : Option String
  stationId : Nat
  pendingBufferPromise : Option Nat
  timer : Option CTimer
  debounceTimer : Option DTimer
  pipelines : List Pipeline
  waiters : List Waiter
  sources : List Source
  currentSource : Option Nat
  playCount : Nat
  events : List Event
deriving DecidableEq

/-- Initial state: the field initializers of the class (source lines 13-23). -/
def init : MState :=
  { now := 0, isPlayingMusic := false, currentStationName := none,
    currentFrequency := none, stationId := 0, pendingBufferPromise := none,
    timer := none, debounceTimer := none, pipelines := [], waiters := [],
    sources := [], currentSource := none, playCount := 0, events := [] }

/-- Outcome of one external asynchronous call: a value, or a thrown
error / rejected promise. -/
inductive StageOut (α : Type) where
  | ok (a : α)
  | err
deriving DecidableEq

/-- Behaviour of the external services, per pipeline index (each pipeline
performs each call at most once).
`scriptOut` is the `.text` field of the script response (`none` when
absent); `ttsOut` is `candidates?.[0]?...inlineData?.data` (`none` when any
link of the chain is missing); `decodeOut` is the decoded buffer produced by
`decodeAudioData`; `playFails k` tells whether the audio-graph construction
or `source.start()` throws on the k-th play attempt. -/
structure Oracle where
  scriptOut : Nat → StageOut (Option String)
  ttsOut : Nat → StageOut (Option String)
  decodeOut : Nat → StageOut Nat
  playFails : Nat → Bool

/-- JavaScript `String.prototype.trim` (used on source line 111), computed
on the character list so that it evaluates inside the kernel: drop
whitespace from both ends. -/
def jsTrim (s : String) : String :=
  ⟨((s.data.dropWhile Char.isWhitespace).reverse.dropWhile Char.isWhitespace).reverse⟩

def emit (s : MState) (e : Event) : MState := { s with events := e :: s.events }

/-- Method `stopTimer` (source lines 77-82). -/
def stopTimer (s : MState) : MState := { s with timer := none }

/-- Method `startTimer` at current time `t` (source lines 84-94): clear the slot,
then arm a 15000 ms timeout capturing `myId = this.stationId` provided music
is playing and a station is tuned. -/
def startTimer (s : MState) (t : Nat) : MState :=
  let s1 := stopTimer s
  if s1.isPlayingMusic ∧ s1.currentStationName.isSome then
    { s1 with timer := some ⟨t + D_ANNOUNCE, s1.stationId⟩ }
  else s1

/-- Method `setMusicPlaying` at current time `t` (source lines 34-44). -/
def setMusicPlaying (s : MState) (t : Nat) (playing : Bool) : MState :=
  let s1 := { s with isPlayingMusic := playing }
  if playing then
    if s1.currentStationName.isSome then startTimer s1 t else s1
  else stopTimer s1

/-- Method `onStationChange` at current time `t` (source lines 49-75): dedup guard
on the station name; otherwise record the new station, bump the epoch, drop
the pending promise, cancel both timers, re-arm the countdown if music is
playing, and arm the settle timer capturing the call arguments. -/
def onStationChange (s : MState) (t : Nat) (stationName frequency : String) :
    MState :=
  if s.currentStationName = some stationName then s
  else
    let s1 := { s with currentStationName := some stationName,
                       currentFrequency := some frequency,
                       stationId := s.stationId + 1,
                       pendingBufferPromise := none }
    let s2 := stopTimer s1
    let s3 := { s2 with debounceTimer := none }
    let s4 := if s3.isPlayingMusic then startTimer s3 t else s3
    { s4 with debounceTimer := some ⟨t + D_SETTLE, stationName, frequency⟩ }

/-- The debounce callback firing (source lines 72-74): create the
generation pipeline `generateAnnouncement(this.stationId, stationName,
frequency)` — `stationId` read now, name/frequency from the closure — and
store its promise into `pendingBufferPromise`. -/
def debounceFire (s : MState) : MState :=
  match s.debounceTimer with
  | none => s
  | some d =>
    let pid := s.pipelines.length
    let s1 := { s with debounceTimer := none,
                       pipelines :=
                         s.pipelines ++ [⟨s.stationId, d.name, d.freq, .awaitScript⟩],
                       pendingBufferPromise := some pid }
    emit s1 (.genRequest pid s.stationId d.name d.freq)

/-- The part of `playPendingAnnouncement` after `await
this.pendingBufferPromise` (source lines 160-187): re-validate epoch and
playing state and the resolved buffer, then build the gain/source graph,
connect it to the speakers and the visualizer and start it; a throw during
those operations is caught and logged (line 189). -/
def playResume (o : Oracle) (s : MState) (myId : Nat) (r : Option Nat)
    (pid created : Nat) : MState :=
  match r with
  | none => s
  | some buffer =>
    if s.stationId = myId ∧ s.isPlayingMusic then
      let k := s.playCount
      let s1 := { s with playCount := k + 1 }
      if o.playFails k then emit s1 .logPlayError
      else
        let sid := s1.sources.length
        let s2 := { s1 with sources := s1.sources ++ [⟨pid, buffer, true, true⟩],
                            currentSource := some sid }
        emit s2 (.playStart sid pid created s2.stationId buffer s2.isPlayingMusic)
    else s

/-- Overwrite the stage of pipeline `pid` (whose record is `p`). -/
def setStage (s : MState) (pid : Nat) (p : Pipeline) (st : PStage) : MState :=
  { s with pipelines := s.pipelines.set pid { p with stage := st } }

/-- Resolution of pipeline `pid` to `r`: record the value, log when the
resolution came from a caught exception (source line 147), then run every
`playPendingAnnouncement` continuation awaiting this promise (microtasks,
in registration order). -/
def resolveP (o : Oracle) (s : MState) (pid : Nat) (p : Pipeline)
    (r : Option Nat) (doLog : Bool) : MState :=
  let s1 := setStage s pid p (.resolved r)
  let s2 := if doLog then emit s1 (.logGenError pid) else s1
  let ws := s2.waiters.filter (fun w => w.pid == pid)
  let s3 := { s2 with waiters := s2.waiters.filter (fun w => w.pid != pid) }
  ws.foldl (fun st w => playResume o st w.myId r pid p.createdId) s3

/-- One asynchronous stage of `generateAnnouncement` completing (source
lines 96-150).  A thrown error at any await is caught by the surrounding
try/catch, logged and turned into `null` (lines 146-149).  After the script
await and after the speech await the code aborts with `null` when the epoch
has advanced (lines 109, 131); the decode await has no such check (lines
137-144).  `!script` is modelled by the trimmed text being missing or empty,
`!audioData` by the data chain being missing or empty. -/
def generateAnnouncementStep (o : Oracle) (s : MState) (pid : Nat) : MState :=
  match s.pipelines[pid]? with
  | none => s
  | some p =>
    match p.stage with
    | .resolved _ => s
    | .awaitScript =>
      match o.scriptOut pid with
      | .err => resolveP o s pid p none true
      | .ok txt =>
        if s.stationId ≠ p.createdId then resolveP o s pid p none false
        else
          match txt with
          | none => resolveP o s pid p none false
          | some raw =>
            if jsTrim raw = "" then resolveP o s pid p none false
            else setStage s pid p (.awaitTts (jsTrim raw))
    | .awaitTts script =>
      match o.ttsOut pid with
      | .err => resolveP o s pid p none true
      | .ok dataOpt =>
        if s.stationId ≠ p.createdId then resolveP o s pid p none false
        else
          match dataOpt with
          | none => resolveP o s pid p none false
          | some data =>
            if data = "" then resolveP o s pid p none false
            else setStage s pid p (.awaitDecode data)
    | .awaitDecode data =>
      match o.decodeOut pid with
      | .err => resolveP o s pid p none true
      | .ok buffer => resolveP o s pid p (some buffer) false

/-- The countdown timer callback firing, i.e. `playPendingAnnouncement(myId)`
up to its await (source lines 90-92 and 152-163): check epoch and playing
state, then await `pendingBufferPromise` — if that promise is already
resolved the continuation runs at once, otherwise it is registered as a
waiter. -/
def countdownFire (o : Oracle) (s : MState) : MState :=
  match s.timer with
  | none => s
  | some tm =>
    let s1 := { s with timer := none }
    if s1.stationId = tm.myId ∧ s1.isPlayingMusic then
      match s1.pendingBufferPromise with
      | none => s1
      | some pid =>
        match s1.pipelines[pid]? with
        | none => s1
        | some p =>
          match p.stage with
          | .resolved r => playResume o s1 tm.myId r pid p.createdId
          | _ => { s1 with waiters := s1.waiters ++ [⟨pid, tm.myId⟩] }
    else s1

/-- The `onended` callback of a started source (source lines 180-187):
clear `currentSource` if it still refers to this source, then disconnect
the source and its gain node. -/
def sourceEndedFire (s : MState) (sid : Nat) : MState :=
  match s.sources[sid]? with
  | none => s
  | some src =>
    if src.playingNow then
      let s1 := if s.currentSource = some sid then { s with currentSource := none }
                else s
      let s2 := { s1 with sources :=
                    s1.sources.set sid { src with playingNow := false, connected := false } }
      emit s2 (.disconnected sid)
    else s

/-- One external occurrence, with its (virtual) time in milliseconds. -/
inductive Act where
  | stationChange (t : Nat) (name freq : String)
  | setPlaying (t : Nat) (playing : Bool)
  | settleFire (t : Nat)
  | countdownTick (t : Nat)
  | pipelineStep (t : Nat) (pid : Nat)
  | ended (t : Nat) (sid : Nat)
deriving DecidableEq

def Act.time : Act → Nat
  | .stationChange t _ _ => t
  | .setPlaying t _ => t
  | .settleFire t => t
  | .countdownTick t => t
  | .pipelineStep t _ => t
  | .ended t _ => t

/-- One step of execution: the handler for the occurrence runs to
completion (single-threaded runtime). -/
def step (o : Oracle) (s : MState) (a : Act) : MState :=
  let s0 := { s with now := a.time }
  match a with
  | .stationChange t name freq => onStationChange s0 t name freq
  | .setPlaying t playing => setMusicPlaying s0 t playing
  | .settleFire _ => debounceFire s0
  | .countdownTick _ => countdownFire o s0
  | .pipelineStep _ pid => generateAnnouncementStep o s0 pid
  | .ended _ sid => sourceEndedFire s0 sid

def run (o : Oracle) (s : MState) : List Act → MState
  | [] => s
  | a :: rest => run o (step o s a) rest

/-- Timing admissibility of one occurrence: time is monotone, no occurrence
happens after the deadline of a still-armed timer (an armed `setTimeout`
fires exactly at its deadline unless cleared first), timer callbacks fire
exactly at their deadline, pipeline stages only advance while suspended,
and `onended` only fires for a source still playing. -/
def validAct (s : MState) (a : Act) : Bool :=
  decide (s.now ≤ a.time) &&
  (match s.timer with
   | some tm => decide (a.time ≤ tm.deadline)
   | none => true) &&
  (match s.debounceTimer with
   | some d => decide (a.time ≤ d.deadline)
   | none => true) &&
  (match a with
   | .countdownTick t =>
     match s.timer with
     | some tm => decide (t = tm.deadline)
     | none => false
   | .settleFire t =>
     match s.debounceTimer with
     | some d => decide (t = d.deadline)
     | none => false
   | .pipelineStep _ pid =>
     match s.pipelines[pid]? with
     | some p => !p.stage.isResolved
     | none => false
   | .ended _ sid =>
     match s.sources[sid]? with
     | some src => src.playingNow
     | none => false
   | _ => true)

def validSched (o : Oracle) (s : MState) : List Act → Bool
  | [] => true
  | a :: rest => validAct s a && validSched o (step o s a) rest

/-! ### Auxiliary predicates and concrete instances used in the theorems -/

/-- An occurrence belonging to the generation side of the system: the settle
timer firing (which issues the generation request) or an asynchronous stage
of a generation pipeline completing.  Used to express independence of the
countdown timer from generation latency: none of these touch the countdown
slot. -/
def isGenAct : Act → Bool
  | .pipelineStep _ _ => true
  | .settleFire _ => true
  | _ => false

/-- Two consecutive station changes: nondecreasing times, strictly less than
the settle delay apart, with distinct names. -/
def chainOK (c c2 : Nat × String × String) : Prop :=
  c.1 ≤ c2.1 ∧ c2.1 < c.1 + D_SETTLE ∧ c.2.1 ≠ c2.2.1

/-- The station-change occurrences for a list of (time, name, frequency). -/
def changesSched : List (Nat × String × String) → List Act :=
  List.map (fun c => Act.stationChange c.1 c.2.1 c.2.2)

/-- Does this event record a playback start of the given pipeline? -/
def isPlayOfPipeline (pid : Nat) : Event → Bool
  | .playStart _ p _ _ _ _ => p == pid
  | _ => false

/-- A happy-path service behaviour: the script request yields text that is
nonempty after trimming, the synthesis request yields audio data, decoding
yields buffer 7, and the audio graph never throws. -/
def oHappy : Oracle :=
  ⟨fun _ => .ok (some (" You are locked in ")), fun _ => .ok (some ("pcm")),
   fun _ => .ok 7, fun _ => false⟩

/-- A trivial service behaviour (no pipeline in these runs ever consults it). -/
def oTriv : Oracle :=
  ⟨fun _ => .ok none, fun _ => .ok none, fun _ => .ok 0, fun _ => false⟩

/-- A service behaviour whose script request always throws. -/
def oErrScript : Oracle :=
  ⟨fun _ => .err, fun _ => .ok none, fun _ => .ok 0, fun _ => false⟩

/-- A service behaviour whose audio-graph construction always throws. -/
def oPlayFail : Oracle :=
  ⟨fun _ => .ok none, fun _ => .ok none, fun _ => .ok 0, fun _ => true⟩

/-- Tune while playing, let the generation finish, countdown fires: one
announcement plays. -/
def schedPlayOnce : List Act :=
  [.setPlaying 0 true, .stationChange 0 "Bossa Nova" "88.0", .settleFire 800,
   .pipelineStep 900 0, .pipelineStep 950 0, .pipelineStep 1000 0,
   .countdownTick 15000]

/-- Same prefix as `schedPlayOnce`, then a redundant playing notification
re-arms the countdown while the first announcement is still audible, and the
second firing starts a second playback before the first has ended. -/
def schedOverlap : List Act :=
  schedPlayOnce ++ [.setPlaying 15001 true, .countdownTick 30001]

/-- The epoch advances while `decodeAudioData` is in flight: tune at 0,
generation starts at 800, script and synthesis stages complete, the station
changes at 1100 (epoch 1 → 2), then the decode stage completes at 1200. -/
def schedStaleDecode : List Act :=
  [.stationChange 0 "Bossa Nova" "88.0", .settleFire 800,
   .pipelineStep 900 0, .pipelineStep 950 0,
   .stationChange 1100 "Chillwave" "89.5", .pipelineStep 1200 0]

/-- The station changes again while the generation for the first station is
still awaiting its script stage: pipeline 0 is left stale and unstarted. -/
def schedStaleScript : List Act :=
  [.stationChange 0 "Bossa Nova" "88.0", .settleFire 800,
   .stationChange 900 "Chillwave" "89.5"]

/-- One announcement plays and ends; a redundant playing notification then
re-arms the countdown with no station change, and the same pipeline's
already-resolved promise is awaited again: the identical buffer replays. -/
def schedReplay : List Act :=
  [.setPlaying 0 true, .stationChange 0 "Neo Soul" "107.5", .settleFire 800,
   .pipelineStep 900 0, .pipelineStep 950 0, .pipelineStep 1000 0,
   .countdownTick 15000, .ended 16000 0, .setPlaying 16500 true,
   .countdownTick 31500]

/-- A playing state with no station tuned yet. -/
def sPlaying : MState := { init with isPlayingMusic := true }

/-- A tuned, playing state with an armed countdown, used to exhibit the
re-arming behaviour of a redundant `setMusicPlaying(true)`. -/
def sRearm : MState :=
  { init with now := 1000, isPlayingMusic := true,
              currentStationName := some ("Jazz"),
              currentFrequency := some ("99.5"), stationId := 3,
              timer := some ⟨5000, 3⟩ }

/-- A tuned, paused state whose countdown fired while a resolved result was
pending (used for trigger-validation witnesses). -/
def sTunedIdle : MState :=
  { init with now := 2000, isPlayingMusic := false,
              currentStationName := some ("Funk"),
              currentFrequency := some ("95.5"), stationId := 2,
              timer := some ⟨17000, 2⟩ }

/-! ### Invariant predicates -/

/-- Validity of a single recorded event: every playback start happened with
the creating epoch of the awaited pipeline equal to the station epoch at
start time, and with music playing. -/
def playEvtOK : Event → Prop
  | .playStart _ _ created cur _ musicOn => created = cur ∧ musicOn = true
  | _ => True

/-- All recorded playback starts were valid. -/
def playsOK (s : MState) : Prop := ∀ e ∈ s.events, playEvtOK e

/-- The promise stored in `pendingBufferPromise` always belongs to a
pipeline created at the current epoch (it is reset on every epoch change,
source line 59, and written only at debounce firing, line 73). -/
def pendOK (s : MState) : Prop :=
  ∀ pid, s.pendingBufferPromise = some pid →
    ∃ p, s.pipelines[pid]? = some p ∧ p.createdId = s.stationId

/-- Every suspended play continuation awaits a pipeline whose creating epoch
equals the timer epoch the continuation was armed with. -/
def waitOK (s : MState) : Prop :=
  ∀ w ∈ s.waiters, ∃ p, s.pipelines[w.pid]? = some p ∧ p.createdId = w.myId

/-- The global safety invariant of the announcer. -/
def Inv (s : MState) : Prop := playsOK s ∧ pendOK s ∧ waitOK s

/-! ### Field-preservation infrastructure -/

/-- The session fields listed here agree between `s1` and `s2`; used to state
that a piece of code writes none of them. -/
structure SameCore (s1 s2 : MState) : Prop where
  nowEq : s2.now = s1.now
  playEq : s2.isPlayingMusic = s1.isPlayingMusic
  nameEq : s2.currentStationName = s1.currentStationName
  freqEq : s2.currentFrequency = s1.currentFrequency
  sidEq : s2.stationId = s1.stationId
  pendEq : s2.pendingBufferPromise = s1.pendingBufferPromise
  timEq : s2.timer = s1.timer
  debEq : s2.debounceTimer = s1.debounceTimer

theorem SameCore.refl (s : MState) : SameCore s s :=
  ⟨rfl, rfl, rfl, rfl, rfl, rfl, rfl, rfl⟩

theorem SameCore.trans {s1 s2 s3 : MState} (h : SameCore s1 s2)
    (h2 : SameCore s2 s3) : SameCore s1 s3 := by
  exact ⟨h2.nowEq.trans h.nowEq, h2.playEq.trans h.playEq,
    h2.nameEq.trans h.nameEq, h2.freqEq.trans h.freqEq,
    h2.sidEq.trans h.sidEq, h2.pendEq.trans h.pendEq,
    h2.timEq.trans h.timEq, h2.debEq.trans h.debEq⟩

theorem playResume_core (o : Oracle) (s : MState) (myId : Nat) (r : Option Nat)
    (pid created : Nat) : SameCore s (playResume o s myId r pid created) := by
  unfold playResume
  cases r <;> dsimp only <;> repeat' split
  all_goals exact ⟨rfl, rfl, rfl, rfl, rfl, rfl, rfl, rfl⟩

theorem playResume_pipelines (o : Oracle) (s : MState) (myId : Nat)
    (r : Option Nat) (pid created : Nat) :
    (playResume o s myId r pid created).pipelines = s.pipelines := by
  unfold playResume
  cases r <;> dsimp only <;> repeat' split
  all_goals rfl

theorem playResume_waiters (o : Oracle) (s : MState) (myId : Nat)
    (r : Option Nat) (pid created : Nat) :
    (playResume o s myId r pid created).waiters = s.waiters := by
  unfold playResume
  cases r <;> dsimp only <;> repeat' split
  all_goals rfl

theorem foldResume_core (o : Oracle) (r : Option Nat) (pid created : Nat)
    (ws : List Waiter) : ∀ s : MState,
    SameCore s (ws.foldl (fun st w => playResume o st w.myId r pid created) s) := by
  induction ws with
  | nil => intro s; exact SameCore.refl s
  | cons w ws ih =>
    intro s
    exact (playResume_core o s w.myId r pid created).trans
      (ih (playResume o s w.myId r pid created))

theorem foldResume_pipelines (o : Oracle) (r : Option Nat) (pid created : Nat)
    (ws : List Waiter) : ∀ s : MState,
    (ws.foldl (fun st w => playResume o st w.myId r pid created) s).pipelines =
      s.pipelines := by
  induction ws with
  | nil => intro s; rfl
  | cons w ws ih =>
    intro s
    rw [List.foldl_cons, ih, playResume_pipelines]

theorem foldResume_waiters (o : Oracle) (r : Option Nat) (pid created : Nat)
    (ws : List Waiter) : ∀ s : MState,
    (ws.foldl (fun st w => playResume o st w.myId r pid created) s).waiters =
      s.waiters := by
  induction ws with
  | nil => intro s; rfl
  | cons w ws ih =>
    intro s
    rw [List.foldl_cons, ih, playResume_waiters]

theorem resolveP_core (o : Oracle) (s : MState) (pid : Nat) (p : Pipeline)
    (r : Option Nat) (doLog : Bool) : SameCore s (resolveP o s pid p r doLog) := by
  unfold resolveP
  refine SameCore.trans ?_ (foldResume_core o r pid p.createdId _ _)
  cases doLog
  · exact ⟨rfl, rfl, rfl, rfl, rfl, rfl, rfl, rfl⟩
  · exact ⟨rfl, rfl, rfl, rfl, rfl, rfl, rfl, rfl⟩

theorem resolveP_pipelines (o : Oracle) (s : MState) (pid : Nat) (p : Pipeline)
    (r : Option Nat) (doLog : Bool) :
    (resolveP o s pid p r doLog).pipelines =
      s.pipelines.set pid { p with stage := .resolved r } := by
  unfold resolveP
  cases doLog <;> rw [foldResume_pipelines] <;> rfl

theorem resolveP_waiters (o : Oracle) (s : MState) (pid : Nat) (p : Pipeline)
    (r : Option Nat) (doLog : Bool) :
    (resolveP o s pid p r doLog).waiters =
      s.waiters.filter (fun w => w.pid != pid) := by
  unfold resolveP
  cases doLog <;> rw [foldResume_waiters] <;> rfl

theorem generateAnnouncementStep_core (o : Oracle) (s : MState) (pid : Nat) :
    SameCore s (generateAnnouncementStep o s pid) := by
  unfold generateAnnouncementStep
  repeat' split
  all_goals first
    | exact SameCore.refl s
    | apply resolveP_core
    | exact ⟨rfl, rfl, rfl, rfl, rfl, rfl, rfl, rfl⟩

theorem sourceEndedFire_core (s : MState) (sid : Nat) :
    SameCore s (sourceEndedFire s sid) := by
  unfold sourceEndedFire
  repeat' split
  all_goals exact ⟨rfl, rfl, rfl, rfl, rfl, rfl, rfl, rfl⟩

theorem sourceEndedFire_pipelines (s : MState) (sid : Nat) :
    (sourceEndedFire s sid).pipelines = s.pipelines := by
  unfold sourceEndedFire
  repeat' split
  all_goals rfl

theorem sourceEndedFire_waiters (s : MState) (sid : Nat) :
    (sourceEndedFire s sid).waiters = s.waiters := by
  unfold sourceEndedFire
  repeat' split
  all_goals rfl

/-! ### Step equations -/

theorem step_stationChange (o : Oracle) (s : MState) (t : Nat) (name freq : String) :
    step o s (.stationChange t name freq) =
      onStationChange { s with now := t } t name freq := rfl

theorem step_setPlaying (o : Oracle) (s : MState) (t : Nat) (b : Bool) :
    step o s (.setPlaying t b) = setMusicPlaying { s with now := t } t b := rfl

theorem step_settleFire (o : Oracle) (s : MState) (t : Nat) :
    step o s (.settleFire t) = debounceFire { s with now := t } := rfl

theorem step_countdownTick (o : Oracle) (s : MState) (t : Nat) :
    step o s (.countdownTick t) = countdownFire o { s with now := t } := rfl

theorem step_pipelineStep (o : Oracle) (s : MState) (t : Nat) (pid : Nat) :
    step o s (.pipelineStep t pid) =
      generateAnnouncementStep o { s with now := t } pid := rfl

theorem step_ended (o : Oracle) (s : MState) (t : Nat) (sid : Nat) :
    step o s (.ended t sid) = sourceEndedFire { s with now := t } sid := rfl

/-! ### Handler equations -/

theorem onStationChange_dedup (s : MState) (t : Nat) (name freq : String)
    (h : s.currentStationName = some name) :
    onStationChange s t name freq = s := by
  unfold onStationChange
  rw [if_pos h]

theorem onStationChange_of_ne (s : MState) (t : Nat) (name freq : String)
    (h : ¬s.currentStationName = some name) :
    onStationChange s t name freq =
      { s with currentStationName := some name, currentFrequency := some freq,
               stationId := s.stationId + 1, pendingBufferPromise := none,
               timer := if s.isPlayingMusic
                        then some ⟨t + D_ANNOUNCE, s.stationId + 1⟩ else none,
               debounceTimer := some ⟨t + D_SETTLE, name, freq⟩ } := by
  unfold onStationChange startTimer stopTimer
  rw [if_neg h]
  cases hp : s.isPlayingMusic <;> simp [hp]

theorem setMusicPlaying_false (s : MState) (t : Nat) :
    setMusicPlaying s t false = { s with isPlayingMusic := false, timer := none } := by
  unfold setMusicPlaying stopTimer
  simp

theorem step_setPlaying_false (o : Oracle) (s : MState) (t : Nat) :
    step o s (.setPlaying t false) =
      { s with now := t, isPlayingMusic := false, timer := none } := by
  rw [step_setPlaying]
  exact setMusicPlaying_false _ t

theorem setMusicPlaying_true_of_none (s : MState) (t : Nat)
    (h : s.currentStationName = none) :
    setMusicPlaying s t true = { s with isPlayingMusic := true } := by
  unfold setMusicPlaying
  simp [h]

theorem setMusicPlaying_true_of_some (s : MState) (t : Nat)
    (h : s.currentStationName.isSome = true) :
    setMusicPlaying s t true =
      { s with isPlayingMusic := true,
               timer := some ⟨t + D_ANNOUNCE, s.stationId⟩ } := by
  unfold setMusicPlaying startTimer stopTimer
  simp [h]

/-- Dedup guard at the step level: a station change with the currently tuned
name only advances the model clock. -/
theorem step_stationChange_dedup (o : Oracle) (s : MState) (t : Nat)
    (name freq : String) (h : s.currentStationName = some name) :
    step o s (.stationChange t name freq) = { s with now := t } := by
  rw [step_stationChange]
  exact onStationChange_dedup _ t name freq h

/-- Effective station change at the step level. -/
theorem step_stationChange_of_ne (o : Oracle) (s : MState) (t : Nat)
    (name freq : String) (h : ¬s.currentStationName = some name) :
    step o s (.stationChange t name freq) =
      { s with now := t, currentStationName := some name,
               currentFrequency := some freq,
               stationId := s.stationId + 1, pendingBufferPromise := none,
               timer := if s.isPlayingMusic
                        then some ⟨t + D_ANNOUNCE, s.stationId + 1⟩ else none,
               debounceTimer := some ⟨t + D_SETTLE, name, freq⟩ } := by
  rw [step_stationChange]
  exact onStationChange_of_ne _ t name freq h

theorem step_setPlaying_true_of_none (o : Oracle) (s : MState) (t : Nat)
    (h : s.currentStationName = none) :
    step o s (.setPlaying t true) = { s with now := t, isPlayingMusic := true } := by
  rw [step_setPlaying]
  exact setMusicPlaying_true_of_none _ t h

theorem step_setPlaying_true_of_some (o : Oracle) (s : MState) (t : Nat)
    (h : s.currentStationName.isSome = true) :
    step o s (.setPlaying t true) =
      { s with now := t, isPlayingMusic := true,
               timer := some ⟨t + D_ANNOUNCE, s.stationId⟩ } := by
  rw [step_setPlaying]
  exact setMusicPlaying_true_of_some _ t h

theorem debounceFire_none (s : MState) (h : s.debounceTimer = none) :
    debounceFire s = s := by
  unfold debounceFire
  rw [h]

theorem debounceFire_some (s : MState) (d : DTimer) (h : s.debounceTimer = some d) :
    debounceFire s =
      { s with debounceTimer := none,
               pipelines := s.pipelines ++ [⟨s.stationId, d.name, d.freq, .awaitScript⟩],
               pendingBufferPromise := some s.pipelines.length,
               events := .genRequest s.pipelines.length s.stationId d.name d.freq
                           :: s.events } := by
  unfold debounceFire
  rw [h]
  rfl

/-! ### List helper lemmas -/

theorem getElem?_append_of_some {α : Type} {l l2 : List α} {i : Nat} {x : α}
    (h : l[i]? = some x) : (l ++ l2)[i]? = some x := by
  have hi : i < l.length := by
    by_contra hni
    rw [List.getElem?_eq_none (Nat.le_of_not_lt hni)] at h
    cases h
  rw [List.getElem?_append, if_pos hi]
  exact h

theorem pipelines_set_createdId (l : List Pipeline) (pid : Nat) (p : Pipeline)
    (st : PStage) (hp : l[pid]? = some p) :
    ∀ (i : Nat) (p0 : Pipeline), l[i]? = some p0 →
      ∃ q : Pipeline, (l.set pid { p with stage := st })[i]? = some q ∧
        q.createdId = p0.createdId := by
  intro i p0 h0
  by_cases hi : pid = i
  · subst hi
    rw [hp] at h0
    cases h0
    have hlen : pid < l.length := by
      by_contra hni
      rw [List.getElem?_eq_none (Nat.le_of_not_lt hni)] at hp
      cases hp
    exact ⟨{ p with stage := st }, List.getElem?_set_self hlen, rfl⟩
  · rw [List.getElem?_set_ne hi]
    exact ⟨p0, h0, rfl⟩

/-! ### Invariant transfer lemmas -/

theorem pendOK_of_fields {s s2 : MState} (h : pendOK s)
    (hpend : s2.pendingBufferPromise = s.pendingBufferPromise)
    (hsid : s2.stationId = s.stationId)
    (hpipes : ∀ (i : Nat) (p : Pipeline), s.pipelines[i]? = some p →
      ∃ q : Pipeline, s2.pipelines[i]? = some q ∧ q.createdId = p.createdId) :
    pendOK s2 := by
  intro pid hp
  rw [hpend] at hp
  obtain ⟨p, hl, hc⟩ := h pid hp
  obtain ⟨q, hl2, hc2⟩ := hpipes pid p hl
  exact ⟨q, hl2, by rw [hc2, hc, hsid]⟩

theorem waitOK_of_fields {s s2 : MState} (h : waitOK s)
    (hws : ∀ w ∈ s2.waiters, w ∈ s.waiters)
    (hpipes : ∀ (i : Nat) (p : Pipeline), s.pipelines[i]? = some p →
      ∃ q : Pipeline, s2.pipelines[i]? = some q ∧ q.createdId = p.createdId) :
    waitOK s2 := by
  intro w hw
  obtain ⟨p, hl, hc⟩ := h w (hws w hw)
  obtain ⟨q, hl2, hc2⟩ := hpipes w.pid p hl
  exact ⟨q, hl2, by rw [hc2, hc]⟩

/-! ### playsOK preservation -/

theorem playResume_playsOK (o : Oracle) (s : MState) (myId : Nat)
    (r : Option Nat) (pid created : Nat) (h : playsOK s) (hcr : created = myId) :
    playsOK (playResume o s myId r pid created) := by
  unfold playResume
  cases r with
  | none => exact h
  | some b =>
    dsimp only
    by_cases hg : s.stationId = myId ∧ s.isPlayingMusic = true
    · rw [if_pos hg]
      by_cases hf : o.playFails s.playCount = true
      · rw [if_pos hf]
        intro e he
        rcases List.mem_cons.mp he with rfl | he2
        · trivial
        · exact h e he2
      · rw [if_neg hf]
        intro e he
        rcases List.mem_cons.mp he with rfl | he2
        · exact ⟨by rw [hcr, hg.1], hg.2⟩
        · exact h e he2
    · rw [if_neg hg]
      exact h

theorem foldResume_playsOK (o : Oracle) (r : Option Nat) (pid created : Nat)
    (ws : List Waiter) : ∀ s : MState, playsOK s →
    (∀ w ∈ ws, created = w.myId) →
    playsOK (ws.foldl (fun st w => playResume o st w.myId r pid created) s) := by
  induction ws with
  | nil => intro s h _; exact h
  | cons w ws ih =>
    intro s h hws
    rw [List.foldl_cons]
    exact ih _
      (playResume_playsOK o s w.myId r pid created h (hws w (List.mem_cons_self w ws)))
      (fun w2 hw2 => hws w2 (List.mem_cons_of_mem _ hw2))

theorem resolveP_playsOK (o : Oracle) (s : MState) (pid : Nat) (p : Pipeline)
    (r : Option Nat) (doLog : Bool) (h : playsOK s) (hw : waitOK s)
    (hp : s.pipelines[pid]? = some p) :
    playsOK (resolveP o s pid p r doLog) := by
  unfold resolveP
  dsimp only
  cases doLog with
  | false =>
    apply foldResume_playsOK
    · exact h
    · intro w hwm
      have hm := List.mem_filter.mp hwm
      obtain ⟨p2, hp2, hc2⟩ := hw w hm.1
      have hpe : w.pid = pid := by simpa using hm.2
      rw [hpe, hp] at hp2
      cases hp2
      exact hc2
  | true =>
    apply foldResume_playsOK
    · intro e he
      rcases List.mem_cons.mp he with rfl | he2
      · trivial
      · exact h e he2
    · intro w hwm
      have hm := List.mem_filter.mp hwm
      obtain ⟨p2, hp2, hc2⟩ := hw w hm.1
      have hpe : w.pid = pid := by simpa using hm.2
      rw [hpe, hp] at hp2
      cases hp2
      exact hc2

theorem playsOK_emit {s : MState} {e : Event} (h : playsOK s) (he : playEvtOK e) :
    playsOK (emit s e) := by
  intro e2 he2
  rcases List.mem_cons.mp he2 with rfl | h2
  · exact he
  · exact h e2 h2

theorem generateAnnouncementStep_playsOK (o : Oracle) (s : MState) (pid : Nat)
    (h : playsOK s) (hw : waitOK s) :
    playsOK (generateAnnouncementStep o s pid) := by
  unfold generateAnnouncementStep
  repeat' split
  all_goals first
    | exact h
    | (apply resolveP_playsOK <;> assumption)

/-! ### pendOK / waitOK preservation -/

theorem pendOK_of_same {s s2 : MState} (h : pendOK s) (hc : SameCore s s2)
    (hp : s2.pipelines = s.pipelines) : pendOK s2 := by
  intro pid hpd
  rw [hc.pendEq] at hpd
  obtain ⟨p, hl, hcr⟩ := h pid hpd
  exact ⟨p, by rw [hp]; exact hl, by rw [hcr, hc.sidEq]⟩

theorem waitOK_of_same {s s2 : MState} (h : waitOK s)
    (hw : s2.waiters = s.waiters) (hp : s2.pipelines = s.pipelines) : waitOK s2 := by
  intro w hwm
  rw [hw] at hwm
  obtain ⟨p, hl, hcr⟩ := h w hwm
  exact ⟨p, by rw [hp]; exact hl, hcr⟩

theorem resolveP_pendOK (o : Oracle) (s : MState) (pid : Nat) (p : Pipeline)
    (r : Option Nat) (doLog : Bool) (h : pendOK s)
    (hp : s.pipelines[pid]? = some p) : pendOK (resolveP o s pid p r doLog) := by
  apply pendOK_of_fields h (resolveP_core o s pid p r doLog).pendEq
    (resolveP_core o s pid p r doLog).sidEq
  rw [resolveP_pipelines]
  exact pipelines_set_createdId s.pipelines pid p (.resolved r) hp

theorem resolveP_waitOK (o : Oracle) (s : MState) (pid : Nat) (p : Pipeline)
    (r : Option Nat) (doLog : Bool) (h : waitOK s)
    (hp : s.pipelines[pid]? = some p) : waitOK (resolveP o s pid p r doLog) := by
  apply waitOK_of_fields h
  · intro w hw2
    rw [resolveP_waiters] at hw2
    exact (List.mem_filter.mp hw2).1
  · rw [resolveP_pipelines]
    exact pipelines_set_createdId s.pipelines pid p (.resolved r) hp

theorem setStage_pendOK (s : MState) (pid : Nat) (p : Pipeline) (st : PStage)
    (h : pendOK s) (hp : s.pipelines[pid]? = some p) :
    pendOK (setStage s pid p st) := by
  refine pendOK_of_fields h ?_ ?_ ?_
  · rfl
  · rfl
  · exact pipelines_set_createdId s.pipelines pid p st hp

theorem setStage_waitOK (s : MState) (pid : Nat) (p : Pipeline) (st : PStage)
    (h : waitOK s) (hp : s.pipelines[pid]? = some p) :
    waitOK (setStage s pid p st) := by
  apply waitOK_of_fields h
  · intro w hw2
    exact hw2
  · exact pipelines_set_createdId s.pipelines pid p st hp

theorem generateAnnouncementStep_pendOK (o : Oracle) (s : MState) (pid : Nat)
    (h : pendOK s) : pendOK (generateAnnouncementStep o s pid) := by
  unfold generateAnnouncementStep
  repeat' split
  all_goals first
    | exact h
    | (apply resolveP_pendOK <;> assumption)
    | (apply setStage_pendOK <;> assumption)

theorem generateAnnouncementStep_waitOK (o : Oracle) (s : MState) (pid : Nat)
    (h : waitOK s) : waitOK (generateAnnouncementStep o s pid) := by
  unfold generateAnnouncementStep
  repeat' split
  all_goals first
    | exact h
    | (apply resolveP_waitOK <;> assumption)
    | (apply setStage_waitOK <;> assumption)

theorem sourceEndedFire_playsOK (s : MState) (sid : Nat) (h : playsOK s) :
    playsOK (sourceEndedFire s sid) := by
  unfold sourceEndedFire
  repeat' split
  all_goals first
    | exact h
    | exact playsOK_emit h trivial

theorem sourceEndedFire_Inv (s : MState) (sid : Nat) (h : Inv s) :
    Inv (sourceEndedFire s sid) := by
  obtain ⟨hpl, hpd, hwt⟩ := h
  exact ⟨sourceEndedFire_playsOK s sid hpl,
    pendOK_of_same hpd (sourceEndedFire_core s sid) (sourceEndedFire_pipelines s sid),
    waitOK_of_same hwt (sourceEndedFire_waiters s sid) (sourceEndedFire_pipelines s sid)⟩

theorem countdownFire_Inv (o : Oracle) (s : MState) (h : Inv s) :
    Inv (countdownFire o s) := by
  obtain ⟨hpl, hpd, hwt⟩ := h
  unfold countdownFire
  split
  · exact ⟨hpl, hpd, hwt⟩
  next tm htm =>
    dsimp only
    by_cases hg : s.stationId = tm.myId ∧ s.isPlayingMusic = true
    · rw [if_pos hg]
      split
      · exact ⟨hpl, hpd, hwt⟩
      next pid hpend =>
        split
        · exact ⟨hpl, hpd, hwt⟩
        next p hp =>
          have hcr : p.createdId = tm.myId := by
            obtain ⟨p2, hp2, hc2⟩ := hpd pid hpend
            rw [hp] at hp2
            cases hp2
            rw [hc2]
            exact hg.1
          split
          · have hpd1 : pendOK { s with timer := none } := hpd
            have hwt1 : waitOK { s with timer := none } := hwt
            have hpl1 : playsOK { s with timer := none } := hpl
            exact ⟨playResume_playsOK o _ tm.myId _ pid p.createdId hpl1 hcr,
              pendOK_of_same hpd1 (playResume_core o _ tm.myId _ pid p.createdId)
                (playResume_pipelines o _ tm.myId _ pid p.createdId),
              waitOK_of_same hwt1 (playResume_waiters o _ tm.myId _ pid p.createdId)
                (playResume_pipelines o _ tm.myId _ pid p.createdId)⟩
          · refine ⟨hpl, hpd, ?_⟩
            intro w hw2
            refine (List.mem_append.mp hw2).elim (fun h1 => hwt w h1) (fun h1 => ?_)
            have hw3 := List.mem_singleton.mp h1
            subst hw3
            obtain ⟨p2, hp2, hc2⟩ := hpd pid hpend
            exact ⟨p2, hp2, by rw [hc2]; exact hg.1⟩
    · rw [if_neg hg]
      exact ⟨hpl, hpd, hwt⟩

/-! ### The invariant holds along every run -/

theorem onStationChange_Inv (s : MState) (t : Nat) (name freq : String)
    (h : Inv s) : Inv (onStationChange s t name freq) := by
  obtain ⟨hpl, hpd, hwt⟩ := h
  by_cases hn : s.currentStationName = some name
  · rw [onStationChange_dedup _ _ _ _ hn]
    exact ⟨hpl, hpd, hwt⟩
  · rw [onStationChange_of_ne _ _ _ _ hn]
    exact ⟨hpl, fun pid hp2 => Option.noConfusion hp2, fun w hw2 => hwt w hw2⟩

theorem setMusicPlaying_Inv (s : MState) (t : Nat) (b : Bool) (h : Inv s) :
    Inv (setMusicPlaying s t b) := by
  obtain ⟨hpl, hpd, hwt⟩ := h
  cases b with
  | false =>
    rw [setMusicPlaying_false]
    exact ⟨hpl, hpd, hwt⟩
  | true =>
    rcases hn : s.currentStationName with _ | nm
    · rw [setMusicPlaying_true_of_none _ _ hn]
      exact ⟨hpl, hpd, hwt⟩
    · rw [setMusicPlaying_true_of_some _ _ (by simp [hn])]
      exact ⟨hpl, hpd, hwt⟩

theorem debounceFire_Inv (s : MState) (h : Inv s) : Inv (debounceFire s) := by
  obtain ⟨hpl, hpd, hwt⟩ := h
  rcases hd : s.debounceTimer with _ | d
  · rw [debounceFire_none _ hd]
    exact ⟨hpl, hpd, hwt⟩
  · rw [debounceFire_some _ d hd]
    refine ⟨?_, ?_, ?_⟩
    · intro e he
      rcases List.mem_cons.mp he with rfl | h2
      · trivial
      · exact hpl e h2
    · intro pid hp2
      have hpe : pid = s.pipelines.length := (Option.some.inj hp2).symm
      subst hpe
      exact ⟨⟨s.stationId, d.name, d.freq, .awaitScript⟩,
        List.getElem?_concat_length _ _, rfl⟩
    · intro w hw2
      obtain ⟨p, hl, hc⟩ := hwt w hw2
      exact ⟨p, getElem?_append_of_some hl, hc⟩

theorem Inv_step (o : Oracle) (s : MState) (a : Act) (h : Inv s) :
    Inv (step o s a) := by
  obtain ⟨hpl, hpd, hwt⟩ := h
  cases a with
  | stationChange t name freq =>
    rw [step_stationChange]
    exact onStationChange_Inv _ t name freq ⟨hpl, hpd, hwt⟩
  | setPlaying t b =>
    rw [step_setPlaying]
    exact setMusicPlaying_Inv _ t b ⟨hpl, hpd, hwt⟩
  | settleFire t =>
    rw [step_settleFire]
    exact debounceFire_Inv _ ⟨hpl, hpd, hwt⟩
  | countdownTick t =>
    rw [step_countdownTick]
    exact countdownFire_Inv o _ ⟨hpl, hpd, hwt⟩
  | pipelineStep t pid =>
    rw [step_pipelineStep]
    exact ⟨generateAnnouncementStep_playsOK o _ pid hpl hwt,
      generateAnnouncementStep_pendOK o _ pid hpd,
      generateAnnouncementStep_waitOK o _ pid hwt⟩
  | ended t sid =>
    rw [step_ended]
    exact sourceEndedFire_Inv _ sid ⟨hpl, hpd, hwt⟩

theorem Inv_run (o : Oracle) (acts : List Act) : ∀ s : MState, Inv s →
    Inv (run o s acts) := by
  induction acts with
  | nil => intro s h; exact h
  | cons a rest ih =>
    intro s h
    exact ih _ (Inv_step o s a h)

theorem Inv_init : Inv init :=
  ⟨fun e he => absurd he (List.not_mem_nil e),
   fun pid hp => Option.noConfusion hp,
   fun w hw => absurd hw (List.not_mem_nil w)⟩

/-! ### Run equations and epoch monotonicity -/

theorem run_nil (o : Oracle) (s : MState) : run o s [] = s := rfl

theorem run_cons (o : Oracle) (s : MState) (a : Act) (rest : List Act) :
    run o s (a :: rest) = run o (step o s a) rest := rfl

theorem setMusicPlaying_stationId (s : MState) (t : Nat) (b : Bool) :
    (setMusicPlaying s t b).stationId = s.stationId := by
  unfold setMusicPlaying startTimer stopTimer
  dsimp only
  repeat' split
  all_goals rfl

theorem debounceFire_stationId (s : MState) :
    (debounceFire s).stationId = s.stationId := by
  unfold debounceFire
  repeat' split
  all_goals rfl

theorem countdownFire_stationId (o : Oracle) (s : MState) :
    (countdownFire o s).stationId = s.stationId := by
  unfold countdownFire
  dsimp only
  repeat' split
  all_goals first
    | rfl
    | exact ((playResume_core _ _ _ _ _ _).sidEq).trans rfl

theorem step_stationId_mono (o : Oracle) (s : MState) (a : Act) :
    s.stationId ≤ (step o s a).stationId := by
  cases a with
  | stationChange t name freq =>
    by_cases hn : s.currentStationName = some name
    · rw [step_stationChange_dedup o s t name freq hn]
    · rw [step_stationChange_of_ne o s t name freq hn]
      exact Nat.le_succ _
  | setPlaying t b =>
    rw [step_setPlaying, setMusicPlaying_stationId]
  | settleFire t =>
    rw [step_settleFire, debounceFire_stationId]
  | countdownTick t =>
    rw [step_countdownTick, countdownFire_stationId]
  | pipelineStep t pid =>
    rw [step_pipelineStep, (generateAnnouncementStep_core o _ pid).sidEq]
  | ended t sid =>
    rw [step_ended, (sourceEndedFire_core _ sid).sidEq]

theorem run_stationId_mono (o : Oracle) (acts : List Act) : ∀ s : MState,
    s.stationId ≤ (run o s acts).stationId := by
  induction acts with
  | nil => intro s; exact Nat.le_refl _
  | cons a rest ih =>
    intro s
    exact Nat.le_trans (step_stationId_mono o s a) (ih (step o s a))

/-! ### Claim C1 -/

/-- C1 (staleness discard): every recorded playback start carries the
creating epoch `created` of the pipeline whose promise was awaited together
with the station epoch `cur` at the moment playback began, and the two
always agree; moreover the epoch counter never decreases along any run.
Hence a generation pipeline started at epoch `e` can never trigger playback
— the only audio-graph effect, and the announcer's only outward effect
besides diagnostic `console.error` lines — once the station has changed,
because every later state has epoch strictly greater than `e`.  The class
has no UI channel and no user-visible error channel at all, so no other
observable effect is possible. -/
theorem C1_staleness_discard :
    (∀ (o : Oracle) (acts : List Act) (e : Event),
      e ∈ (run o init acts).events →
      ∀ sid pid created cur buf musicOn,
        e = Event.playStart sid pid created cur buf musicOn → created = cur) ∧
    (∀ (o : Oracle) (s : MState) (acts : List Act),
      s.stationId ≤ (run o s acts).stationId) := by
  constructor
  · intro o acts e he sid pid created cur buf musicOn heq
    have hInv := Inv_run o acts init Inv_init
    have h2 := hInv.1 e he
    rw [heq] at h2
    exact h2.1
  · intro o s acts
    exact run_stationId_mono o acts s

/-- Witness for C1 at a concrete run in which an announcement does play. -/
theorem C1_staleness_discard_witness :
    ((1 : Nat) = 1) ∧ init.stationId ≤ (run oHappy init schedPlayOnce).stationId :=
  ⟨C1_staleness_discard.1 oHappy schedPlayOnce
      (Event.playStart 0 0 1 1 7 true) (by decide) 0 0 1 1 7 true rfl,
   C1_staleness_discard.2 oHappy init schedPlayOnce⟩

/-! ### Claim C3 -/

/-- C3 (idempotent retune): when the station-change handler is called with
the currently tuned station name, nothing happens: the epoch is not
incremented, no session field changes, no timer is cancelled and no
countdown or settle timer is armed, and no event is emitted.  (Only the
virtual clock `now` of the model advances.) -/
theorem C3_idempotent_retune (o : Oracle) (s : MState) (t : Nat)
    (name freq : String) (h : s.currentStationName = some name) :
    (step o s (.stationChange t name freq)).isPlayingMusic = s.isPlayingMusic ∧
    (step o s (.stationChange t name freq)).currentStationName = s.currentStationName ∧
    (step o s (.stationChange t name freq)).currentFrequency = s.currentFrequency ∧
    (step o s (.stationChange t name freq)).stationId = s.stationId ∧
    (step o s (.stationChange t name freq)).pendingBufferPromise
      = s.pendingBufferPromise ∧
    (step o s (.stationChange t name freq)).timer = s.timer ∧
    (step o s (.stationChange t name freq)).debounceTimer = s.debounceTimer ∧
    (step o s (.stationChange t name freq)).pipelines = s.pipelines ∧
    (step o s (.stationChange t name freq)).waiters = s.waiters ∧
    (step o s (.stationChange t name freq)).sources = s.sources ∧
    (step o s (.stationChange t name freq)).currentSource = s.currentSource ∧
    (step o s (.stationChange t name freq)).playCount = s.playCount ∧
    (step o s (.stationChange t name freq)).events = s.events := by
  rw [step_stationChange_dedup o s t name freq h]
  exact ⟨rfl, rfl, rfl, rfl, rfl, rfl, rfl, rfl, rfl, rfl, rfl, rfl, rfl⟩

/-- Witness for C3: retuning `sRearm` to its current station "Jazz" (even
with a different frequency) changes neither the epoch nor the armed timer. -/
theorem C3_idempotent_retune_witness :
    sRearm.currentStationName = some ("Jazz") ∧
    (step oTriv sRearm (.stationChange 1500 "Jazz" "88.0")).stationId
      = sRearm.stationId ∧
    (step oTriv sRearm (.stationChange 1500 "Jazz" "88.0")).timer = sRearm.timer :=
  ⟨by decide,
   (C3_idempotent_retune oTriv sRearm 1500 "Jazz" "88.0" (by decide)).2.2.2.1,
   (C3_idempotent_retune oTriv sRearm 1500 "Jazz" "88.0" (by decide)).2.2.2.2.2.1⟩

/-! ### Claim C5 -/

/-- C5 is stated with "if and only if *transitioning* to true": that fails
on the code.  In `sRearm` music is already playing (no transition) and a
countdown armed at epoch 3 with deadline 5000 is pending; a redundant
`setMusicPlaying(true)` at time 1200 nevertheless re-arms the countdown
fresh (new deadline 16200 ≠ 5000), because `setMusicPlaying` calls
`startTimer()` whenever `playing` is true and a station is tuned (source
lines 36-40), without comparing against the previous playing state. -/
theorem C5_counterexample :
    sRearm.isPlayingMusic = true ∧
    sRearm.timer = some ⟨5000, 3⟩ ∧
    (step oTriv sRearm (.setPlaying 1200 true)).isPlayingMusic = true ∧
    (step oTriv sRearm (.setPlaying 1200 true)).timer = some ⟨16200, 3⟩ ∧
    ¬(step oTriv sRearm (.setPlaying 1200 true)).timer = sRearm.timer := by
  decide

/-- C5 amended: `setMusicPlaying(p)` always sets `isPlayingMusic` to `p`;
the countdown timer is (re)armed for the current epoch with its full
duration fresh if and only if `p` is true and a station is tuned —
regardless of whether this is a transition (a redundant
`setMusicPlaying(true)` also restarts the countdown); if `p` is false any
armed countdown is cancelled; and no announcement ever starts playing while
music is not playing (every recorded playback start has `musicOn = true`).
Setting playing to true again later without a station change therefore arms
a fresh countdown from that moment. -/
theorem C5_amended :
    (∀ (o : Oracle) (s : MState) (t : Nat) (p : Bool),
      (step o s (.setPlaying t p)).isPlayingMusic = p ∧
      (p = true → s.currentStationName.isSome = true →
        (step o s (.setPlaying t p)).timer
          = some ⟨t + D_ANNOUNCE, s.stationId⟩) ∧
      (p = true → s.currentStationName = none →
        (step o s (.setPlaying t p)).timer = s.timer) ∧
      (p = false → (step o s (.setPlaying t p)).timer = none)) ∧
    (∀ (o : Oracle) (acts : List Act) (e : Event),
      e ∈ (run o init acts).events →
      ∀ sid pid created cur buf musicOn,
        e = Event.playStart sid pid created cur buf musicOn →
          musicOn = true) := by
  constructor
  · intro o s t p
    refine ⟨?_, ?_, ?_, ?_⟩
    · cases p with
      | false => rw [step_setPlaying_false]
      | true =>
        rcases hn : s.currentStationName with _ | nm
        · rw [step_setPlaying_true_of_none o s t hn]
        · rw [step_setPlaying_true_of_some o s t (by simp [hn])]
    · intro hp hsome
      subst hp
      rw [step_setPlaying_true_of_some o s t hsome]
    · intro hp hnone
      subst hp
      rw [step_setPlaying_true_of_none o s t hnone]
    · intro hp
      subst hp
      rw [step_setPlaying_false]
  · intro o acts e he sid pid created cur buf musicOn heq
    have h2 := (Inv_run o acts init Inv_init).1 e he
    rw [heq] at h2
    exact h2.2

/-- Witness for the amended C5: pausing cancels the countdown of `sRearm`,
and the playback start in the concrete run `schedPlayOnce` happened with
music playing. -/
theorem C5_amended_witness :
    (step oTriv sRearm (.setPlaying 1300 false)).timer = none ∧ (true = true) :=
  ⟨(C5_amended.1 oTriv sRearm 1300 false).2.2.2 rfl,
   C5_amended.2 oHappy schedPlayOnce (Event.playStart 0 0 1 1 7 true) (by decide)
     0 0 1 1 7 true rfl⟩

/-! ### Claim C4 -/

theorem debounceFire_timer (s : MState) : (debounceFire s).timer = s.timer := by
  unfold debounceFire
  repeat' split
  all_goals rfl

theorem run_gen_timer (o : Oracle) (L : List Act) : ∀ s : MState,
    (∀ a ∈ L, isGenAct a = true) → (run o s L).timer = s.timer := by
  induction L with
  | nil => intro s _; rfl
  | cons a rest ih =>
    intro s hL
    have ha := hL a (List.mem_cons_self a rest)
    rw [run_cons, ih _ (fun a2 h2 => hL a2 (List.mem_cons_of_mem _ h2))]
    cases a with
    | pipelineStep t pid =>
      rw [step_pipelineStep]
      exact ((generateAnnouncementStep_core o _ pid).timEq).trans rfl
    | settleFire t =>
      rw [step_settleFire]
      exact (debounceFire_timer _).trans rfl
    | stationChange t n f => exact Bool.noConfusion ha
    | setPlaying t b => exact Bool.noConfusion ha
    | countdownTick t => exact Bool.noConfusion ha
    | ended t sid => exact Bool.noConfusion ha

theorem validAct_countdownTick_deadline {s : MState} {tf : Nat} {tm : CTimer}
    (ht : s.timer = some tm) (hv : validAct s (.countdownTick tf) = true) :
    tf = tm.deadline := by
  unfold validAct at hv
  rw [ht] at hv
  simp only [Bool.and_eq_true, decide_eq_true_eq] at hv
  exact hv.2

/-- C4 (countdown independence from generation latency): when music is
playing and a station change is not deduplicated, the countdown timer for
the new epoch is armed at the moment of the call with absolute deadline
`t + D_ANNOUNCE`; no sequence of generation-side occurrences (the settle
timer firing, pipeline stages completing — whether before or after the
deadline) modifies that timer; and in any state reached by such occurrences
the countdown callback can only fire, per the timing admissibility
predicate, at exactly `t + D_ANNOUNCE`. -/
theorem C4_countdown_independence (o : Oracle) (s : MState) (t : Nat)
    (name freq : String) (hplay : s.isPlayingMusic = true)
    (hname : ¬s.currentStationName = some name) :
    ((step o s (.stationChange t name freq)).timer
      = some ⟨t + D_ANNOUNCE, s.stationId + 1⟩) ∧
    (∀ L : List Act, (∀ a ∈ L, isGenAct a = true) →
      (run o (step o s (.stationChange t name freq)) L).timer
        = some ⟨t + D_ANNOUNCE, s.stationId + 1⟩) ∧
    (∀ (L : List Act) (tf : Nat), (∀ a ∈ L, isGenAct a = true) →
      validAct (run o (step o s (.stationChange t name freq)) L)
        (.countdownTick tf) = true → tf = t + D_ANNOUNCE) := by
  have h1 : (step o s (.stationChange t name freq)).timer
      = some ⟨t + D_ANNOUNCE, s.stationId + 1⟩ := by
    rw [step_stationChange_of_ne o s t name freq hname]
    simp [hplay]
  refine ⟨h1, ?_, ?_⟩
  · intro L hL
    rw [run_gen_timer o L _ hL, h1]
  · intro L tf hL hv
    have ht : (run o (step o s (.stationChange t name freq)) L).timer
        = some ⟨t + D_ANNOUNCE, s.stationId + 1⟩ := by
      rw [run_gen_timer o L _ hL, h1]
    exact validAct_countdownTick_deadline ht hv

/-- Witness for C4: tune to "Jazz" at time 5 while playing; the countdown is
armed with deadline 15005, survives the settle firing and all three pipeline
stages, and the admissibility predicate then allows the countdown to fire
only at 15005. -/
theorem C4_countdown_independence_witness :
    ((step oHappy sPlaying (.stationChange 5 "Jazz" "99.5")).timer
      = some ⟨15005, 1⟩) ∧
    ((run oHappy (step oHappy sPlaying (.stationChange 5 "Jazz" "99.5"))
        [.settleFire 805, .pipelineStep 900 0, .pipelineStep 950 0,
         .pipelineStep 1000 0]).timer = some ⟨15005, 1⟩) ∧
    (15005 = 5 + D_ANNOUNCE) :=
  ⟨(C4_countdown_independence oHappy sPlaying 5 "Jazz" "99.5" rfl (by decide)).1,
   (C4_countdown_independence oHappy sPlaying 5 "Jazz" "99.5" rfl (by decide)).2.1
     [.settleFire 805, .pipelineStep 900 0, .pipelineStep 950 0,
      .pipelineStep 1000 0] (by decide),
   (C4_countdown_independence oHappy sPlaying 5 "Jazz" "99.5" rfl (by decide)).2.2
     [.settleFire 805, .pipelineStep 900 0, .pipelineStep 950 0,
      .pipelineStep 1000 0] 15005 (by decide) (by decide)⟩

/-! ### Claim C7 -/

/-- C7 claims a staleness check occurs after each asynchronous stage of the
generation pipeline, including the decoding into a playable buffer.  The
code checks after the script await (source line 109) and after the speech
await (line 131), but the decode await (lines 137-144) returns the buffer
without re-checking.  In this timing-admissible run the station changes at
time 1100 (epoch 1 → 2) while the decode of pipeline 0 (created at epoch 1)
is in flight; the decode completes at 1200 and the pipeline resolves to
audio buffer 7 rather than to the absent result the claim requires. -/
theorem C7_counterexample :
    validSched oHappy init schedStaleDecode = true ∧
    (run oHappy init schedStaleDecode).stationId = 2 ∧
    (run oHappy init schedStaleDecode).pipelines[0]? =
      some ⟨1, "Bossa Nova", "88.0", .resolved (some 7)⟩ := by decide

/-- C7 amended: a pipeline resolves to an absent result when the current
epoch no longer equals its creating epoch after its script stage or its
speech-synthesis stage completes (whatever the stage outcome); there is no
such check after the decode stage, so a pipeline whose epoch advances during
decoding resolves to the decoded audio, which downstream consumers discard
through their own epoch checks. -/
theorem C7_amended (o : Oracle) (s : MState) (pid : Nat) (p : Pipeline)
    (hp : s.pipelines[pid]? = some p) (hstale : s.stationId ≠ p.createdId)
    (hstage : p.stage = .awaitScript ∨ ∃ sc, p.stage = .awaitTts sc) :
    (generateAnnouncementStep o s pid).pipelines =
      s.pipelines.set pid { p with stage := .resolved none } := by
  unfold generateAnnouncementStep
  rw [hp]
  dsimp only
  rcases hstage with h | ⟨sc, h⟩ <;> rw [h] <;> dsimp only
  · rcases ho : o.scriptOut pid with txt | _ <;> dsimp only
    · rw [if_pos hstale, resolveP_pipelines]
    · rw [resolveP_pipelines]
  · rcases ho : o.ttsOut pid with d | _ <;> dsimp only
    · rw [if_pos hstale, resolveP_pipelines]
    · rw [resolveP_pipelines]

/-- Witness for the amended C7 at the end of `schedStaleScript`, where
pipeline 0 awaits its script stage and the epoch has advanced to 2. -/
theorem C7_amended_witness :
    (generateAnnouncementStep oHappy (run oHappy init schedStaleScript) 0).pipelines
      = (run oHappy init schedStaleScript).pipelines.set 0
          { createdId := 1, station := "Bossa Nova", freq := "88.0",
            stage := .resolved none } :=
  C7_amended oHappy (run oHappy init schedStaleScript) 0
    ⟨1, "Bossa Nova", "88.0", .awaitScript⟩ (by decide) (by decide) (Or.inl rfl)

/-! ### Claim C9 -/

/-- C9's "at most one announcement audibly playing at any time" fails on
the code: starting a new announcement never stops a still-playing earlier
one.  In this timing-admissible run an announcement starts at 15000; a
redundant playing notification at 15001 re-arms the countdown (same epoch);
its firing at 30001 passes every check (the pending promise is never
cleared within an epoch) and starts a second playback while the first
source has not yet ended — two sources are audibly playing at once. -/
theorem C9_counterexample :
    validSched oHappy init schedOverlap = true ∧
    ((run oHappy init schedOverlap).sources.countP
      (fun src => src.playingNow)) = 2 := by decide

/-- C9 amended: starting a new announcement does not stop a still-playing
earlier one, so two announcements can overlap when an announcement outlasts
a re-armed countdown; the cleanup discipline does hold: when a playback
finishes naturally, its source and gain nodes are disconnected, the
`disconnected` event is the only new observable, other sources are
untouched, and the currently-playing handle is cleared if and only if it
still refers to this playback. -/
theorem C9_amended (s : MState) (sid : Nat) (src : Source)
    (hs : s.sources[sid]? = some src) (hplay : src.playingNow = true) :
    (sourceEndedFire s sid).sources[sid]? =
      some { src with playingNow := false, connected := false } ∧
    (s.currentSource = some sid → (sourceEndedFire s sid).currentSource = none) ∧
    (¬s.currentSource = some sid →
      (sourceEndedFire s sid).currentSource = s.currentSource) ∧
    (sourceEndedFire s sid).events = .disconnected sid :: s.events ∧
    (∀ j : Nat, ¬sid = j →
      (sourceEndedFire s sid).sources[j]? = s.sources[j]?) := by
  have hlen : sid < s.sources.length := by
    by_contra hni
    rw [List.getElem?_eq_none (Nat.le_of_not_lt hni)] at hs
    cases hs
  unfold sourceEndedFire
  rw [hs]
  dsimp only
  rw [if_pos hplay]
  by_cases hc : s.currentSource = some sid
  · rw [if_pos hc]
    exact ⟨List.getElem?_set_self hlen, fun _ => rfl,
      fun hnc => absurd hc hnc, rfl, fun j hj => List.getElem?_set_ne hj⟩
  · rw [if_neg hc]
    exact ⟨List.getElem?_set_self hlen, fun hcc => absurd hcc hc,
      fun _ => rfl, rfl, fun j hj => List.getElem?_set_ne hj⟩

/-- Witness for the amended C9 at the end of `schedPlayOnce`, where source 0
is playing and owned by `currentSource`. -/
theorem C9_amended_witness :
    (sourceEndedFire (run oHappy init schedPlayOnce) 0).sources[0]? =
      some { pid := 0, buf := 7, playingNow := false, connected := false } ∧
    (sourceEndedFire (run oHappy init schedPlayOnce) 0).currentSource = none :=
  ⟨(C9_amended (run oHappy init schedPlayOnce) 0 ⟨0, 7, true, true⟩
      (by decide) (by decide)).1,
   (C9_amended (run oHappy init schedPlayOnce) 0 ⟨0, 7, true, true⟩
      (by decide) (by decide)).2.1 (by decide)⟩

/-! ### Claim C10 -/

theorem setMusicPlaying_pending (s : MState) (t : Nat) (b : Bool) :
    (setMusicPlaying s t b).pendingBufferPromise = s.pendingBufferPromise := by
  unfold setMusicPlaying startTimer stopTimer
  dsimp only
  repeat' split
  all_goals rfl

theorem countdownFire_pending (o : Oracle) (s : MState) :
    (countdownFire o s).pendingBufferPromise = s.pendingBufferPromise := by
  unfold countdownFire
  dsimp only
  repeat' split
  all_goals first
    | rfl
    | exact ((playResume_core _ _ _ _ _ _).pendEq).trans rfl

/-- C10 (implicit — announcement replay within an epoch): the pending
promise field is written only by the station-change handler (which clears
it) and the settle-timer callback (which stores the new pipeline's
promise); no other occurrence — in particular no playback — ever changes
it.  Consequently, replaying is possible: in the run `schedReplay` one
announcement of pipeline 0 plays and ends, then a playing notification with
no intervening station change re-arms the countdown, whose firing awaits
the same already-resolved promise and plays the identical buffer again —
two playback starts of pipeline 0, with the pending promise still set at
the end. -/
theorem C10_replay_within_epoch :
    (∀ (o : Oracle) (s : MState) (a : Act),
      (∀ t n f, a ≠ .stationChange t n f) → (∀ t, a ≠ .settleFire t) →
      (step o s a).pendingBufferPromise = s.pendingBufferPromise) ∧
    validSched oHappy init schedReplay = true ∧
    (run oHappy init schedReplay).pendingBufferPromise = some 0 ∧
    ((run oHappy init schedReplay).events.countP (isPlayOfPipeline 0)) = 2 := by
  refine ⟨?_, by decide, by decide, by decide⟩
  intro o s a hsc hsf
  cases a with
  | stationChange t n f => exact absurd rfl (hsc t n f)
  | settleFire t => exact absurd rfl (hsf t)
  | setPlaying t b =>
    rw [step_setPlaying]
    exact (setMusicPlaying_pending _ t b).trans rfl
  | countdownTick t =>
    rw [step_countdownTick]
    exact (countdownFire_pending o _).trans rfl
  | pipelineStep t pid =>
    rw [step_pipelineStep]
    exact ((generateAnnouncementStep_core o _ pid).pendEq).trans rfl
  | ended t sid =>
    rw [step_ended]
    exact ((sourceEndedFire_core _ sid).pendEq).trans rfl

/-- Witness for C10: a redundant playing notification leaves the pending
promise of `sRearm` untouched. -/
theorem C10_replay_within_epoch_witness :
    (step oTriv sRearm (.setPlaying 1200 true)).pendingBufferPromise
      = sRearm.pendingBufferPromise :=
  C10_replay_within_epoch.1 oTriv sRearm (.setPlaying 1200 true)
    (fun t n f h => Act.noConfusion h) (fun t h => Act.noConfusion h)

/-! ### Claim C8 -/

theorem lt_length_of_getElem?_some {α : Type} {l : List α} {i : Nat} {x : α}
    (h : l[i]? = some x) : i < l.length := by
  by_contra hni
  rw [List.getElem?_eq_none (Nat.le_of_not_lt hni)] at h
  cases h

theorem playResume_of_none (o : Oracle) (s : MState) (myId pid created : Nat) :
    playResume o s myId none pid created = s := rfl

theorem foldResume_none (o : Oracle) (pid created : Nat) (ws : List Waiter) :
    ∀ s : MState,
    ws.foldl (fun st w => playResume o st w.myId none pid created) s = s := by
  induction ws with
  | nil => intro s; rfl
  | cons w ws ih =>
    intro s
    rw [List.foldl_cons]
    exact ih _

/-- Resolving a pipeline to the absent result after a caught exception:
the stage is recorded, one `console.error` line is emitted, waiting play
continuations are woken and do nothing (the resolved value is absent), and
nothing else changes. -/
theorem resolveP_none_log (o : Oracle) (s : MState) (pid : Nat) (p : Pipeline) :
    resolveP o s pid p none true =
      { s with pipelines := s.pipelines.set pid { p with stage := .resolved none },
               events := .logGenError pid :: s.events,
               waiters := s.waiters.filter (fun w => w.pid != pid) } := by
  unfold resolveP
  dsimp only
  rw [foldResume_none]
  rfl

/-- Resolving a pipeline silently to the absent result (staleness or an
empty/missing service value): no event at all is emitted. -/
theorem resolveP_none_silent (o : Oracle) (s : MState) (pid : Nat) (p : Pipeline) :
    resolveP o s pid p none false =
      { s with pipelines := s.pipelines.set pid { p with stage := .resolved none },
               waiters := s.waiters.filter (fun w => w.pid != pid) } := by
  unfold resolveP
  dsimp only
  rw [foldResume_none]
  rfl

theorem genStep_resolved (o : Oracle) (s : MState) (pid : Nat) (p : Pipeline)
    (r : Option Nat) (hp : s.pipelines[pid]? = some p)
    (hst : p.stage = .resolved r) :
    generateAnnouncementStep o s pid = s := by
  unfold generateAnnouncementStep
  rw [hp]
  dsimp only
  rw [hst]

theorem genStep_stage_script (o : Oracle) (s : MState) (pid : Nat) (p : Pipeline)
    (hp : s.pipelines[pid]? = some p) (hst : p.stage = .awaitScript) :
    ∃ q : Pipeline, (generateAnnouncementStep o s pid).pipelines[pid]? = some q ∧
      q.createdId = p.createdId ∧
      (q.stage = .resolved none ∨ ∃ sc, q.stage = .awaitTts sc) := by
  have hlen : pid < s.pipelines.length := lt_length_of_getElem?_some hp
  unfold generateAnnouncementStep
  rw [hp]
  dsimp only
  rw [hst]
  dsimp only
  rcases ho : o.scriptOut pid with txt | _ <;> dsimp only
  · by_cases hs : s.stationId ≠ p.createdId
    · rw [if_pos hs, resolveP_pipelines]
      exact ⟨_, List.getElem?_set_self hlen, rfl, Or.inl rfl⟩
    · rw [if_neg hs]
      rcases txt with _ | raw <;> dsimp only
      · rw [resolveP_pipelines]
        exact ⟨_, List.getElem?_set_self hlen, rfl, Or.inl rfl⟩
      · by_cases he : jsTrim raw = ""
        · rw [if_pos he, resolveP_pipelines]
          exact ⟨_, List.getElem?_set_self hlen, rfl, Or.inl rfl⟩
        · rw [if_neg he]
          exact ⟨{ p with stage := .awaitTts (jsTrim raw) },
            List.getElem?_set_self hlen, rfl, Or.inr ⟨_, rfl⟩⟩
  · rw [resolveP_pipelines]
    exact ⟨_, List.getElem?_set_self hlen, rfl, Or.inl rfl⟩

theorem genStep_stage_tts (o : Oracle) (s : MState) (pid : Nat) (p : Pipeline)
    (sc : String) (hp : s.pipelines[pid]? = some p)
    (hst : p.stage = .awaitTts sc) :
    ∃ q : Pipeline, (generateAnnouncementStep o s pid).pipelines[pid]? = some q ∧
      q.createdId = p.createdId ∧
      (q.stage = .resolved none ∨ ∃ data, q.stage = .awaitDecode data) := by
  have hlen : pid < s.pipelines.length := lt_length_of_getElem?_some hp
  unfold generateAnnouncementStep
  rw [hp]
  dsimp only
  rw [hst]
  dsimp only
  rcases ho : o.ttsOut pid with d | _ <;> dsimp only
  · by_cases hs : s.stationId ≠ p.createdId
    · rw [if_pos hs, resolveP_pipelines]
      exact ⟨_, List.getElem?_set_self hlen, rfl, Or.inl rfl⟩
    · rw [if_neg hs]
      rcases d with _ | data <;> dsimp only
      · rw [resolveP_pipelines]
        exact ⟨_, List.getElem?_set_self hlen, rfl, Or.inl rfl⟩
      · by_cases he : data = ""
        · rw [if_pos he, resolveP_pipelines]
          exact ⟨_, List.getElem?_set_self hlen, rfl, Or.inl rfl⟩
        · rw [if_neg he]
          exact ⟨{ p with stage := .awaitDecode data },
            List.getElem?_set_self hlen, rfl, Or.inr ⟨_, rfl⟩⟩
  · rw [resolveP_pipelines]
    exact ⟨_, List.getElem?_set_self hlen, rfl, Or.inl rfl⟩

theorem genStep_stage_decode (o : Oracle) (s : MState) (pid : Nat) (p : Pipeline)
    (data : String) (hp : s.pipelines[pid]? = some p)
    (hst : p.stage = .awaitDecode data) :
    ∃ (q : Pipeline) (r : Option Nat),
      (generateAnnouncementStep o s pid).pipelines[pid]? = some q ∧
      q.stage = .resolved r := by
  have hlen : pid < s.pipelines.length := lt_length_of_getElem?_some hp
  unfold generateAnnouncementStep
  rw [hp]
  dsimp only
  rw [hst]
  dsimp only
  rcases ho : o.decodeOut pid with buffer | _ <;> dsimp only
  · rw [resolveP_pipelines]
    exact ⟨_, some buffer, List.getElem?_set_self hlen, rfl⟩
  · rw [resolveP_pipelines]
    exact ⟨_, none, List.getElem?_set_self hlen, rfl⟩

/-- C8 (no propagated faults): thrown or rejected external calls are caught
by the pipeline's try/catch and turn into the absent result with exactly
one diagnostic log line and no other state change (conjuncts 1-3, one per
asynchronous stage); every pipeline reaches a resolved state — playable
buffer or absence, never a propagated fault — within at most three stage
completions (conjunct 4); a throw during audio-graph construction or start
is caught by the playback trigger's try/catch and produces only a
diagnostic log line (conjunct 5).  No conjunct emits any user-visible
error: the only events are log lines. -/
theorem C8_no_propagated_faults (o : Oracle) :
    (∀ (s : MState) (pid : Nat) (p : Pipeline), s.pipelines[pid]? = some p →
      p.stage = .awaitScript → o.scriptOut pid = .err →
      generateAnnouncementStep o s pid =
        { s with pipelines := s.pipelines.set pid { p with stage := .resolved none },
                 events := .logGenError pid :: s.events,
                 waiters := s.waiters.filter (fun w => w.pid != pid) }) ∧
    (∀ (s : MState) (pid : Nat) (p : Pipeline) (sc : String),
      s.pipelines[pid]? = some p →
      p.stage = .awaitTts sc → o.ttsOut pid = .err →
      generateAnnouncementStep o s pid =
        { s with pipelines := s.pipelines.set pid { p with stage := .resolved none },
                 events := .logGenError pid :: s.events,
                 waiters := s.waiters.filter (fun w => w.pid != pid) }) ∧
    (∀ (s : MState) (pid : Nat) (p : Pipeline) (data : String),
      s.pipelines[pid]? = some p →
      p.stage = .awaitDecode data → o.decodeOut pid = .err →
      generateAnnouncementStep o s pid =
        { s with pipelines := s.pipelines.set pid { p with stage := .resolved none },
                 events := .logGenError pid :: s.events,
                 waiters := s.waiters.filter (fun w => w.pid != pid) }) ∧
    (∀ (s : MState) (pid : Nat) (p : Pipeline), s.pipelines[pid]? = some p →
      ∃ (q : Pipeline) (r : Option Nat),
        (generateAnnouncementStep o (generateAnnouncementStep o
          (generateAnnouncementStep o s pid) pid) pid).pipelines[pid]? = some q ∧
        q.stage = .resolved r) ∧
    (∀ (s : MState) (myId buf pid created : Nat),
      s.stationId = myId → s.isPlayingMusic = true →
      o.playFails s.playCount = true →
      playResume o s myId (some buf) pid created =
        { s with playCount := s.playCount + 1,
                 events := .logPlayError :: s.events }) := by
  refine ⟨?_, ?_, ?_, ?_, ?_⟩
  · intro s pid p hp hst herr
    unfold generateAnnouncementStep
    rw [hp]
    dsimp only
    rw [hst]
    dsimp only
    rw [herr]
    dsimp only
    rw [resolveP_none_log]
  · intro s pid p sc hp hst herr
    unfold generateAnnouncementStep
    rw [hp]
    dsimp only
    rw [hst]
    dsimp only
    rw [herr]
    dsimp only
    rw [resolveP_none_log]
  · intro s pid p data hp hst herr
    unfold generateAnnouncementStep
    rw [hp]
    dsimp only
    rw [hst]
    dsimp only
    rw [herr]
    dsimp only
    rw [resolveP_none_log]
  · intro s pid p hp
    rcases hst4 : p.stage with _ | sc | data | r
    · obtain ⟨q1, hq1, hc1, hd1⟩ := genStep_stage_script o s pid p hp hst4
      rcases hd1 with h1 | ⟨sc, h1⟩
      · rw [genStep_resolved o _ pid q1 none hq1 h1,
           genStep_resolved o _ pid q1 none hq1 h1]
        exact ⟨q1, none, hq1, h1⟩
      · obtain ⟨q2, hq2, hc2, hd2⟩ := genStep_stage_tts o _ pid q1 sc hq1 h1
        rcases hd2 with h2 | ⟨data, h2⟩
        · rw [genStep_resolved o _ pid q2 none hq2 h2]
          exact ⟨q2, none, hq2, h2⟩
        · exact genStep_stage_decode o _ pid q2 data hq2 h2
    · obtain ⟨q2, hq2, hc2, hd2⟩ := genStep_stage_tts o s pid p sc hp hst4
      rcases hd2 with h2 | ⟨data, h2⟩
      · rw [genStep_resolved o _ pid q2 none hq2 h2,
           genStep_resolved o _ pid q2 none hq2 h2]
        exact ⟨q2, none, hq2, h2⟩
      · obtain ⟨q3, r3, hq3, h3⟩ := genStep_stage_decode o _ pid q2 data hq2 h2
        rw [genStep_resolved o _ pid q3 r3 hq3 h3]
        exact ⟨q3, r3, hq3, h3⟩
    · obtain ⟨q3, r3, hq3, h3⟩ := genStep_stage_decode o s pid p data hp hst4
      rw [genStep_resolved o _ pid q3 r3 hq3 h3,
         genStep_resolved o _ pid q3 r3 hq3 h3]
      exact ⟨q3, r3, hq3, h3⟩
    · rw [genStep_resolved o s pid p r hp hst4,
         genStep_resolved o s pid p r hp hst4,
         genStep_resolved o s pid p r hp hst4]
      exact ⟨p, r, hp, hst4⟩
  · intro s myId buf pid created h1 h2 hf
    unfold playResume
    dsimp only
    rw [if_pos ⟨h1, h2⟩, if_pos hf]
    rfl

/-- Witness for C8: a rejected script request for the stale pipeline of
`schedStaleScript` resolves it to absence with one log line; and a throwing
audio-graph construction in the playing state `sRearm` produces only a log
line. -/
theorem C8_no_propagated_faults_witness :
    (generateAnnouncementStep oErrScript (run oErrScript init schedStaleScript) 0
      = { (run oErrScript init schedStaleScript) with
          pipelines := (run oErrScript init schedStaleScript).pipelines.set 0
            { createdId := 1, station := "Bossa Nova", freq := "88.0",
              stage := .resolved none },
          events := .logGenError 0
            :: (run oErrScript init schedStaleScript).events,
          waiters := (run oErrScript init schedStaleScript).waiters.filter
            (fun w => w.pid != 0) }) ∧
    (playResume oPlayFail sRearm 3 (some 7) 0 3
      = { sRearm with playCount := sRearm.playCount + 1,
                      events := .logPlayError :: sRearm.events }) :=
  ⟨(C8_no_propagated_faults oErrScript).1 (run oErrScript init schedStaleScript) 0
      ⟨1, "Bossa Nova", "88.0", .awaitScript⟩ (by decide) rfl rfl,
   (C8_no_propagated_faults oPlayFail).2.2.2.2 sRearm 3 7 0 3 rfl rfl rfl⟩

/-! ### Claim C6 -/

/-- C6 (playback trigger validation): for a countdown firing armed at epoch
`tm.myId`: (a) if at fire time the epoch has changed or music is stopped,
the trigger aborts and the only change is the consumed timer slot — no
event, no graph object, no state mutation; (b) likewise when no generation
was ever requested for this epoch; (c) likewise when the awaited promise
resolved to absence; (d) when the promise resolved to a buffer, the
validations hold and the audio graph does not throw, playback starts at
once: the source is connected and started, `currentSource` is taken, and a
`playStart` event with `musicOn = true` is recorded; (e) when the promise
is still pending, the continuation is registered and nothing plays yet.
For the continuation resumed after the await: (f) if the epoch or playing
re-validation fails or the resolved value is absent, it does nothing at
all; (g) otherwise playback starts exactly as in (d).  Together these give
the claim's "if and only if" and the silent-abort behaviour. -/
theorem C6_playback_trigger_validation (o : Oracle) (s : MState) (tm : CTimer)
    (htm : s.timer = some tm) :
    (¬(s.stationId = tm.myId ∧ s.isPlayingMusic = true) →
      countdownFire o s = { s with timer := none }) ∧
    (s.pendingBufferPromise = none →
      countdownFire o s = { s with timer := none }) ∧
    (∀ (pid : Nat) (p : Pipeline), s.pendingBufferPromise = some pid →
      s.pipelines[pid]? = some p → p.stage = .resolved none →
      countdownFire o s = { s with timer := none }) ∧
    (∀ (pid : Nat) (p : Pipeline) (buf : Nat),
      s.stationId = tm.myId → s.isPlayingMusic = true →
      s.pendingBufferPromise = some pid → s.pipelines[pid]? = some p →
      p.stage = .resolved (some buf) → o.playFails s.playCount = false →
      countdownFire o s =
        { s with timer := none, playCount := s.playCount + 1,
                 sources := s.sources ++ [⟨pid, buf, true, true⟩],
                 currentSource := some s.sources.length,
                 events := .playStart s.sources.length pid p.createdId
                             s.stationId buf true :: s.events }) ∧
    (∀ (pid : Nat) (p : Pipeline),
      s.stationId = tm.myId → s.isPlayingMusic = true →
      s.pendingBufferPromise = some pid → s.pipelines[pid]? = some p →
      p.stage.isResolved = false →
      countdownFire o s =
        { s with timer := none, waiters := s.waiters ++ [⟨pid, tm.myId⟩] }) ∧
    (∀ (myId : Nat) (r : Option Nat) (pid created : Nat),
      (¬(s.stationId = myId ∧ s.isPlayingMusic = true) ∨ r = none) →
      playResume o s myId r pid created = s) ∧
    (∀ (myId buf pid created : Nat),
      s.stationId = myId → s.isPlayingMusic = true →
      o.playFails s.playCount = false →
      playResume o s myId (some buf) pid created =
        { s with playCount := s.playCount + 1,
                 sources := s.sources ++ [⟨pid, buf, true, true⟩],
                 currentSource := some s.sources.length,
                 events := .playStart s.sources.length pid created
                             s.stationId buf true :: s.events }) := by
  refine ⟨?_, ?_, ?_, ?_, ?_, ?_, ?_⟩
  · intro hg
    unfold countdownFire
    rw [htm]
    dsimp only
    rw [if_neg hg]
  · intro hpend
    unfold countdownFire
    rw [htm]
    dsimp only
    by_cases hg : s.stationId = tm.myId ∧ s.isPlayingMusic = true
    · rw [if_pos hg, hpend]
    · rw [if_neg hg]
  · intro pid p hpend hp hst
    unfold countdownFire
    rw [htm]
    dsimp only
    by_cases hg : s.stationId = tm.myId ∧ s.isPlayingMusic = true
    · rw [if_pos hg, hpend]
      dsimp only
      rw [hp]
      dsimp only
      rw [hst]
      rfl
    · rw [if_neg hg]
  · intro pid p buf h1 h2 hpend hp hst hf
    unfold countdownFire
    rw [htm]
    dsimp only
    rw [if_pos ⟨h1, h2⟩, hpend]
    dsimp only
    rw [hp]
    dsimp only
    rw [hst]
    dsimp only
    unfold playResume
    dsimp only
    rw [if_pos ⟨h1, h2⟩, if_neg (by simp [hf]), h2]
    rfl
  · intro pid p h1 h2 hpend hp hres
    unfold countdownFire
    rw [htm]
    dsimp only
    rw [if_pos ⟨h1, h2⟩, hpend]
    dsimp only
    rw [hp]
    dsimp only
    rcases hst : p.stage with _ | sc | d | r
    · rfl
    · rfl
    · rfl
    · rw [hst] at hres
      exact Bool.noConfusion hres
  · intro myId r pid created hfail
    rcases hfail with hg | hr
    · unfold playResume
      cases r with
      | none => rfl
      | some buf =>
        dsimp only
        rw [if_neg hg]
    · subst hr
      rfl
  · intro myId buf pid created h1 h2 hf
    unfold playResume
    dsimp only
    rw [if_pos ⟨h1, h2⟩, if_neg (by simp [hf]), h2]
    rfl

/-- Witness for C6: in `sTunedIdle` music is stopped, so the countdown
firing aborts with only the timer slot consumed. -/
theorem C6_playback_trigger_validation_witness :
    countdownFire oTriv sTunedIdle = { sTunedIdle with timer := none } :=
  (C6_playback_trigger_validation oTriv sTunedIdle ⟨17000, 2⟩ (by decide)).1
    (by decide)

/-! ### Claim C2 -/

theorem run_append (o : Oracle) (l1 : List Act) : ∀ (s : MState) (l2 : List Act),
    run o s (l1 ++ l2) = run o (run o s l1) l2 := by
  induction l1 with
  | nil => intro s l2; rfl
  | cons a rest ih =>
    intro s l2
    rw [List.cons_append, run_cons, run_cons, ih]

theorem validSched_append (o : Oracle) (l1 : List Act) :
    ∀ (s : MState) (l2 : List Act),
    validSched o s (l1 ++ l2) =
      (validSched o s l1 && validSched o (run o s l1) l2) := by
  induction l1 with
  | nil => intro s l2; rfl
  | cons a rest ih =>
    intro s l2
    rw [List.cons_append]
    show (validAct s a && validSched o (step o s a) (rest ++ l2)) = _
    rw [ih, ← Bool.and_assoc]
    rfl

theorem validAct_stationChange (s : MState) (t : Nat) (name freq : String)
    (h1 : s.now ≤ t) (h2 : ∀ tm, s.timer = some tm → t ≤ tm.deadline)
    (h3 : ∀ d, s.debounceTimer = some d → t ≤ d.deadline) :
    validAct s (.stationChange t name freq) = true := by
  unfold validAct
  rcases ht : s.timer with _ | tm <;> rcases hd : s.debounceTimer with _ | d
  · simp [Act.time, h1]
  · simp [Act.time, h1, h3 d hd]
  · simp [Act.time, h1, h2 tm ht]
  · simp [Act.time, h1, h2 tm ht, h3 d hd]

theorem validAct_settleFire (s : MState) (d : DTimer)
    (hd : s.debounceTimer = some d) (h1 : s.now ≤ d.deadline)
    (h2 : ∀ tm, s.timer = some tm → d.deadline ≤ tm.deadline) :
    validAct s (.settleFire d.deadline) = true := by
  unfold validAct
  rw [hd]
  rcases ht : s.timer with _ | tm
  · simp [Act.time, h1]
  · simp [Act.time, h1, h2 tm ht]

/-- Processing a chain of station changes whose gaps are all strictly below
the settle delay: the whole schedule is timing-admissible (no armed settle
timer ever reaches its deadline before being cancelled), no generation
request is issued, and the resulting state carries the parameters of the
last change, an epoch advanced once per change, and a settle timer armed
from the last change. -/
theorem runChanges (o : Oracle) (cs : List (Nat × String × String)) :
    ∀ (c : Nat × String × String) (s : MState),
    ¬s.currentStationName = some c.2.1 →
    s.now ≤ c.1 →
    (∀ tm, s.timer = some tm → c.1 ≤ tm.deadline) →
    (∀ d, s.debounceTimer = some d → c.1 ≤ d.deadline) →
    List.Chain' chainOK (c :: cs) →
    validSched o s (changesSched (c :: cs)) = true ∧
    run o s (changesSched (c :: cs)) =
      { s with now := (cs.getLastD c).1,
               currentStationName := some (cs.getLastD c).2.1,
               currentFrequency := some (cs.getLastD c).2.2,
               stationId := s.stationId + (cs.length + 1),
               pendingBufferPromise := none,
               timer := if s.isPlayingMusic
                        then some ⟨(cs.getLastD c).1 + D_ANNOUNCE,
                                   s.stationId + (cs.length + 1)⟩ else none,
               debounceTimer := some ⟨(cs.getLastD c).1 + D_SETTLE,
                                      (cs.getLastD c).2.1, (cs.getLastD c).2.2⟩ } := by
  induction cs with
  | nil =>
    intro c s hname hnow htm hdb hchain
    constructor
    · show (validAct s (.stationChange c.1 c.2.1 c.2.2) &&
        validSched o (step o s (.stationChange c.1 c.2.1 c.2.2)) []) = true
      rw [validAct_stationChange s c.1 c.2.1 c.2.2 hnow htm hdb]
      rfl
    · show step o s (.stationChange c.1 c.2.1 c.2.2) = _
      rw [step_stationChange_of_ne o s c.1 c.2.1 c.2.2 hname]
      rfl
  | cons c2 cs ih =>
    intro c s hname hnow htm hdb hchain
    obtain ⟨hcc, hchain2⟩ := List.chain'_cons.mp hchain
    have h800 : c2.1 < c.1 + 800 := hcc.2.1
    have hle : c.1 ≤ c2.1 := hcc.1
    have hstep := step_stationChange_of_ne o s c.1 c.2.1 c.2.2 hname
    have key := ih c2
      ({ s with now := c.1, currentStationName := some c.2.1,
                currentFrequency := some c.2.2, stationId := s.stationId + 1,
                pendingBufferPromise := none,
                timer := if s.isPlayingMusic
                         then some ⟨c.1 + D_ANNOUNCE, s.stationId + 1⟩ else none,
                debounceTimer := some ⟨c.1 + D_SETTLE, c.2.1, c.2.2⟩ })
      (fun h => hcc.2.2 (Option.some.inj h)) hle
      (by
        intro tm htm2
        cases hp : s.isPlayingMusic with
        | false =>
          dsimp only at htm2
          rw [if_neg (by simp [hp])] at htm2
          exact Option.noConfusion htm2
        | true =>
          dsimp only at htm2
          rw [if_pos hp] at htm2
          rw [← Option.some.inj htm2]
          show c2.1 ≤ c.1 + 15000
          omega)
      (by
        intro d hd2
        have hd3 : (⟨c.1 + D_SETTLE, c.2.1, c.2.2⟩ : DTimer) = d :=
          Option.some.inj hd2
        rw [← hd3]
        show c2.1 ≤ c.1 + 800
        omega)
      hchain2
    constructor
    · show (validAct s (.stationChange c.1 c.2.1 c.2.2) &&
        validSched o (step o s (.stationChange c.1 c.2.1 c.2.2))
          (changesSched (c2 :: cs))) = true
      rw [validAct_stationChange s c.1 c.2.1 c.2.2 hnow htm hdb, hstep, key.1]
      rfl
    · show run o (step o s (.stationChange c.1 c.2.1 c.2.2))
        (changesSched (c2 :: cs)) = _
      rw [hstep, key.2]
      have harith : s.stationId + 1 + (cs.length + 1)
          = s.stationId + (cs.length + 1 + 1) := by omega
      dsimp only
      rw [harith, List.getLastD_cons]
      rfl

/-- C2 (debounce coalescing): starting from a quiescent announcer (no armed
timers) whose tuned station differs from the first change, a sequence of
N ≥ 1 station changes at intervals strictly below the settle delay,
followed by quiescence until the settle timer fires, is timing-admissible
and issues exactly one generation request — the only new event of the whole
schedule — parameterized by the name and frequency of the last change and
by the epoch reached after all N changes. -/
theorem C2_debounce_coalescing (o : Oracle) (s : MState)
    (c : Nat × String × String) (cs : List (Nat × String × String))
    (hname : ¬s.currentStationName = some c.2.1)
    (hnow : s.now ≤ c.1)
    (htm : s.timer = none) (hdb : s.debounceTimer = none)
    (hchain : List.Chain' chainOK (c :: cs)) :
    validSched o s (changesSched (c :: cs)
      ++ [.settleFire ((cs.getLastD c).1 + D_SETTLE)]) = true ∧
    (run o s (changesSched (c :: cs)
      ++ [.settleFire ((cs.getLastD c).1 + D_SETTLE)])).events =
      .genRequest s.pipelines.length (s.stationId + (cs.length + 1))
        (cs.getLastD c).2.1 (cs.getLastD c).2.2 :: s.events := by
  have hrc := runChanges o cs c s hname hnow
    (fun tm h => absurd (htm.symm.trans h) (by simp))
    (fun d h => absurd (hdb.symm.trans h) (by simp)) hchain
  constructor
  · rw [validSched_append, hrc.1, hrc.2]
    have hv := validAct_settleFire
      ({ s with now := (cs.getLastD c).1,
                currentStationName := some (cs.getLastD c).2.1,
                currentFrequency := some (cs.getLastD c).2.2,
                stationId := s.stationId + (cs.length + 1),
                pendingBufferPromise := none,
                timer := if s.isPlayingMusic
                         then some ⟨(cs.getLastD c).1 + D_ANNOUNCE,
                                    s.stationId + (cs.length + 1)⟩ else none,
                debounceTimer := some ⟨(cs.getLastD c).1 + D_SETTLE,
                                       (cs.getLastD c).2.1, (cs.getLastD c).2.2⟩ })
      ⟨(cs.getLastD c).1 + D_SETTLE, (cs.getLastD c).2.1, (cs.getLastD c).2.2⟩
      rfl (Nat.le_add_right _ _)
      (by
        intro tm htm2
        cases hp : s.isPlayingMusic with
        | false =>
          dsimp only at htm2
          rw [if_neg (by simp [hp])] at htm2
          exact Option.noConfusion htm2
        | true =>
          dsimp only at htm2
          rw [if_pos hp] at htm2
          rw [← Option.some.inj htm2]
          show (cs.getLastD c).1 + 800 ≤ (cs.getLastD c).1 + 15000
          omega)
    rw [show validSched o
        ({ s with now := (cs.getLastD c).1,
                  currentStationName := some (cs.getLastD c).2.1,
                  currentFrequency := some (cs.getLastD c).2.2,
                  stationId := s.stationId + (cs.length + 1),
                  pendingBufferPromise := none,
                  timer := if s.isPlayingMusic
                           then some ⟨(cs.getLastD c).1 + D_ANNOUNCE,
                                      s.stationId + (cs.length + 1)⟩ else none,
                  debounceTimer := some ⟨(cs.getLastD c).1 + D_SETTLE,
                                         (cs.getLastD c).2.1, (cs.getLastD c).2.2⟩ })
        [.settleFire ((cs.getLastD c).1 + D_SETTLE)]
        = true from by rw [validSched]; rw [hv]; rfl]
    rfl
  · rw [run_append, hrc.2]
    show (debounceFire _).events = _
    rw [debounceFire_some _ ⟨(cs.getLastD c).1 + D_SETTLE,
        (cs.getLastD c).2.1, (cs.getLastD c).2.2⟩ rfl]

/-- Witness for C2: two station changes 500 ms apart starting from the
initial state, then the settle timer fires at 1300: the whole schedule is
admissible and exactly one generation request is issued, for
"Chillwave"/"89.5" at epoch 2. -/
theorem C2_debounce_coalescing_witness :
    validSched oTriv init (changesSched [(0, "Bossa Nova", "88.0"),
        (500, "Chillwave", "89.5")] ++ [.settleFire 1300]) = true ∧
    (run oTriv init (changesSched [(0, "Bossa Nova", "88.0"),
        (500, "Chillwave", "89.5")] ++ [.settleFire 1300])).events =
      [.genRequest 0 2 "Chillwave" "89.5"] :=
  C2_debounce_coalescing oTriv init (0, "Bossa Nova", "88.0")
    [(500, "Chillwave", "89.5")] (by decide) (by decide) rfl rfl
    (List.chain'_cons.mpr ⟨⟨by decide, by decide, by decide⟩,
      List.chain'_singleton _⟩)
end Radio
